import Mathlib

/-!
Verification of the universal-nft resilience pipeline (signature
verification and replay protection, circuit breaker, fraud detection,
retry/recovery orchestration) against its specification.

Shallow embedding conventions:
* Machine integers are `Nat` (unsigned) or `Int` (signed), with explicit
  `% 2^w` where the source relies on wrapping, and explicit checked /
  saturating arithmetic where the source uses `checked_add` /
  `saturating_add`.
* Byte strings are `List Nat` (each entry a byte value).
* Fallible Rust functions returning `Result` become `Except Err _`.
* `Clock::get()?.unix_timestamp` becomes an explicit `now : Int`
  parameter.
* External cryptographic primitives (`secp256k1_recover`, `keccak`) are
  parameters of the functions that call them; everything else is
  translated from the source.
-/

/-- Little-endian `u64` byte encoding, as produced by Rust's
`u64::to_le_bytes` (the value is reduced mod `2^64` by construction). -/
def u64le (n : Nat) : List Nat :=
  (List.range 8).map (fun i => n / 2 ^ (8 * i) % 256)

/-- Big-endian `u64` byte encoding (used in SHA-256 length padding). -/
def u64be (n : Nat) : List Nat :=
  (List.range 8).map (fun i => n / 2 ^ (8 * (7 - i)) % 256)

/-- Big-endian `u32` byte encoding. -/
def u32be (n : Nat) : List Nat :=
  [n / 2 ^ 24 % 256, n / 2 ^ 16 % 256, n / 2 ^ 8 % 256, n % 256]

namespace Sha256

/-- Reduce mod `2^32` (all SHA-256 word arithmetic is `u32`). -/
def m32 (x : Nat) : Nat := x % 4294967296

/-- Rotate a 32-bit word right by `n` bits. -/
def rotr32 (n x : Nat) : Nat := m32 (x / 2 ^ n + x % 2 ^ n * 2 ^ (32 - n))

/-- Bitwise complement of a 32-bit word. -/
def not32 (x : Nat) : Nat := 4294967295 - m32 x

def bigSigma0 (x : Nat) : Nat := rotr32 2 x ^^^ rotr32 13 x ^^^ rotr32 22 x

def bigSigma1 (x : Nat) : Nat := rotr32 6 x ^^^ rotr32 11 x ^^^ rotr32 25 x

def smallSigma0 (x : Nat) : Nat := rotr32 7 x ^^^ rotr32 18 x ^^^ x / 2 ^ 3

def smallSigma1 (x : Nat) : Nat := rotr32 17 x ^^^ rotr32 19 x ^^^ x / 2 ^ 10

def ch (e f g : Nat) : Nat := (e &&& f) ^^^ (not32 e &&& g)

def maj (a b c : Nat) : Nat := (a &&& b) ^^^ (a &&& c) ^^^ (b &&& c)

/-- The 64 SHA-256 round constants. -/
def K : List Nat :=
  [1116352408, 1899447441, 3049323471, 3921009573,
   961987163, 1508970993, 2453635748, 2870763221,
   3624381080, 310598401, 607225278, 1426881987,
   1925078388, 2162078206, 2614888103, 3248222580,
   3835390401, 4022224774, 264347078, 604807628,
   770255983, 1249150122, 1555081692, 1996064986,
   2554220882, 2821834349, 2952996808, 3210313671,
   3336571891, 3584528711, 113926993, 338241895,
   666307205, 773529912, 1294757372, 1396182291,
   1695183700, 1986661051, 2177026350, 2456956037,
   2730485921, 2820302411, 3259730800, 3345764771,
   3516065817, 3600352804, 4094571909, 275423344,
   430227734, 506948616, 659060556, 883997877,
   958139571, 1322822218, 1537002063, 1747873779,
   1955562222, 2024104815, 2227730452, 2361852424,
   2428436474, 2756734187, 3204031479, 3329325298]

/-- SHA-256 working state (eight 32-bit words). -/
structure St where
  a : Nat
  b : Nat
  c : Nat
  d : Nat
  e : Nat
  f : Nat
  g : Nat
  h : Nat
  deriving DecidableEq, Repr

/-- The SHA-256 initial hash value. -/
def H0 : St :=
  ⟨1779033703, 3144134277, 1013904242, 2773480762,
   1359893119, 2600822924, 528734635, 1541459225⟩

/-- Extend the 16 block words to the 64-entry message schedule. -/
def schedule (block : List Nat) : List Nat :=
  (List.range 48).foldl
    (fun ws _ =>
      let n := ws.length
      ws ++ [m32 (smallSigma1 (ws.getD (n - 2) 0) + ws.getD (n - 7) 0 +
                  smallSigma0 (ws.getD (n - 15) 0) + ws.getD (n - 16) 0)])
    block

/-- One SHA-256 round. -/
def round (s : St) (wk : Nat × Nat) : St :=
  let t1 := m32 (s.h + bigSigma1 s.e + ch s.e s.f s.g + wk.2 + wk.1)
  let t2 := m32 (bigSigma0 s.a + maj s.a s.b s.c)
  ⟨m32 (t1 + t2), s.a, s.b, s.c, m32 (s.d + t1), s.e, s.f, s.g⟩

/-- Compress one 64-byte block (given as 16 words) into the hash state. -/
def compress (s : St) (blockWords : List Nat) : St :=
  let ws := schedule blockWords
  let t := (ws.zip K).foldl round s
  ⟨m32 (s.a + t.a), m32 (s.b + t.b), m32 (s.c + t.c), m32 (s.d + t.d),
   m32 (s.e + t.e), m32 (s.f + t.f), m32 (s.g + t.g), m32 (s.h + t.h)⟩

/-- Number of zero bytes in the SHA-256 padding for a message of `len`
bytes (so that `len + 1 + zeros + 8` is a multiple of 64). -/
def padZeros (len : Nat) : Nat := (120 - (len + 1) % 64) % 64

/-- SHA-256 padding: append `0x80`, zeros, and the 64-bit big-endian bit
length. -/
def pad (msg : List Nat) : List Nat :=
  msg ++ [0x80] ++ List.replicate (padZeros msg.length) 0 ++ u64be (8 * msg.length)

/-- Parse a 64-byte block (at byte offset `off`) into 16 big-endian words. -/
def blockWordsAt (padded : List Nat) (off : Nat) : List Nat :=
  (List.range 16).map (fun i =>
    padded.getD (off + 4 * i) 0 * 16777216 + padded.getD (off + 4 * i + 1) 0 * 65536 +
    padded.getD (off + 4 * i + 2) 0 * 256 + padded.getD (off + 4 * i + 3) 0)

/-- Full SHA-256 of a byte string, producing the 32-byte digest. -/
def sha256 (msg : List Nat) : List Nat :=
  let padded := pad msg
  let final := (List.range (padded.length / 64)).foldl
    (fun s i => compress s (blockWordsAt padded (64 * i))) H0
  u32be final.a ++ u32be final.b ++ u32be final.c ++ u32be final.d ++
  u32be final.e ++ u32be final.f ++ u32be final.g ++ u32be final.h

end Sha256

/-- Error variants of `UniversalNftError` (src/errors.rs) that the
embedded functions use, together with the two circuit-breaker variants
named by src/security/circuit_breaker.rs. -/
inductive Err where
  | ProgramPaused
  | InvalidTssSignature
  | InvalidMessageFormat
  | InvalidChainId
  | InvalidRecipient
  | NonceMismatch
  | InvalidTransferStatus
  | ArithmeticOverflow
  | PublicKeyRecoveryFailed
  | SenderVerificationFailed
  | CircuitBreakerOpen
  | CircuitBreakerRateLimit
  deriving DecidableEq, Repr

/-- `ProgramConfig` (src/state.rs): the shared configuration account.
Pubkeys are 32-byte strings. -/
structure ProgramConfig where
  authority : List Nat
  gateway_authority : List Nat
  tss_authority : List Nat
  nonce : Nat
  bump : Nat
  is_paused : Bool
  deriving DecidableEq, Repr

/-- Type of the external `solana_program::secp256k1_recover` primitive:
given the 32-byte message hash, the recovery id and the 64-byte
signature, it either recovers the signer's 64-byte uncompressed public
key or fails (invalid signature/recovery-id for the curve). It is a
parameter of the embedding, not translated code. -/
def RecoverFn : Type := List Nat → Nat → List Nat → Option (List Nat)

/-- Type of the external `solana_program::keccak::hash` primitive
(Keccak-256), producing a 32-byte digest. A parameter of the embedding. -/
def KeccakFn : Type := List Nat → List Nat

namespace SignatureUtils

/-- `SignatureUtils::pubkey_to_ethereum_address` (src/utils.rs lines
34-39): Keccak-256 of the 64-byte uncompressed public key, keeping
bytes 12..32 (the last 20). -/
def pubkey_to_ethereum_address (keccak : KeccakFn) (pubkey : List Nat) : List Nat :=
  (keccak pubkey).drop 12

/-- `SignatureUtils::verify_ecdsa_signature` (src/utils.rs lines 16-31):
recover the public key (error `PublicKeyRecoveryFailed` when recovery
fails), derive its Ethereum address, and return the boolean comparison
with the expected 20-byte signer. -/
def verify_ecdsa_signature (recover : RecoverFn) (keccak : KeccakFn)
    (message_hash : List Nat) (signature : List Nat) (recovery_id : Nat)
    (expected_signer : List Nat) : Except Err Bool :=
  match recover message_hash recovery_id signature with
  | none => .error .PublicKeyRecoveryFailed
  | some recovered_pubkey =>
      .ok (decide (pubkey_to_ethereum_address keccak recovered_pubkey = expected_signer))

/-- `SignatureUtils::hash_message` (src/utils.rs lines 65-80): SHA-256 of
nonce, chain id, recipient, amount, data fed to the hasher in that
order, numeric fields as `u64` little-endian.  Feeding the five
`hasher.update` calls in sequence and finalizing equals hashing the
concatenation, which is how the incremental hasher is modelled. -/
def hash_message (nonce : Nat) (chain_id : Nat) (recipient : List Nat)
    (amount : Nat) (data : List Nat) : List Nat :=
  Sha256.sha256 (u64le nonce ++ u64le chain_id ++ recipient ++ u64le amount ++ data)

end SignatureUtils

namespace CrossChainUtils

/-- `CrossChainUtils::validate_chain_id` (src/utils.rs lines 88-104). -/
def validate_chain_id (chain_id : Nat) : Except Err Bool :=
  if chain_id = 7000 ∨ chain_id = 7001 ∨ chain_id = 1 ∨ chain_id = 5 ∨
     chain_id = 56 ∨ chain_id = 97 then
    .ok true
  else
    .error .InvalidChainId

/-- `CrossChainUtils::validate_recipient` (src/utils.rs lines 107-115). -/
def validate_recipient (recipient : List Nat) : Except Err Bool :=
  if recipient.length = 20 ∨ recipient.length = 32 then .ok true
  else .error .InvalidRecipient

end CrossChainUtils

namespace SigIx

/-- `pubkey_to_eth_address` (src/instructions/signature.rs lines
189-196): the first 20 bytes of the 32-byte Solana pubkey. -/
def pubkey_to_eth_address (pubkey : List Nat) : List Nat := pubkey.take 20

/-- `verify_cross_chain_message` (src/instructions/signature.rs lines
45-100).  The `&mut config` account is threaded explicitly: on success
the returned config carries the updated nonce; an error return carries
no state (the transaction aborts). -/
def verify_cross_chain_message (recover : RecoverFn) (keccak : KeccakFn)
    (config : ProgramConfig) (nonce chain_id : Nat) (recipient : List Nat)
    (amount : Nat) (data : List Nat) (signature : List Nat)
    (recovery_id : Nat) : Except Err ProgramConfig :=
  if config.is_paused then .error .ProgramPaused
  else if ¬ nonce > config.nonce then .error .NonceMismatch
  else
    match CrossChainUtils.validate_chain_id chain_id with
    | .error e => .error e
    | .ok _ =>
      match CrossChainUtils.validate_recipient recipient with
      | .error e => .error e
      | .ok _ =>
        let message_hash := SignatureUtils.hash_message nonce chain_id recipient amount data
        let tss_eth_address := pubkey_to_eth_address config.tss_authority
        match SignatureUtils.verify_ecdsa_signature recover keccak message_hash
                signature recovery_id tss_eth_address with
        | .error e => .error e
        | .ok is_valid =>
          if is_valid then .ok { config with nonce := nonce }
          else .error .InvalidTssSignature

/-- Solana runtime view of `verify_cross_chain_message`: a failed
instruction reverts, so the stored config is unchanged on any error. -/
def apply_verify_cross_chain_message (recover : RecoverFn) (keccak : KeccakFn)
    (config : ProgramConfig) (nonce chain_id : Nat) (recipient : List Nat)
    (amount : Nat) (data : List Nat) (signature : List Nat)
    (recovery_id : Nat) : ProgramConfig :=
  match verify_cross_chain_message recover keccak config nonce chain_id recipient
          amount data signature recovery_id with
  | .ok config2 => config2
  | .error _ => config

/-- One entry of the batch loop body (src/instructions/signature.rs
lines 128-144): `?` propagates a recovery error, and
`require!(is_valid, InvalidTssSignature)` rejects a mismatch. -/
def batch_entry (recover : RecoverFn) (keccak : KeccakFn)
    (tss_eth_address : List Nat) (e : (List Nat × List Nat) × Nat) :
    Except Err Unit :=
  match SignatureUtils.verify_ecdsa_signature recover keccak e.1.1 e.1.2 e.2
          tss_eth_address with
  | .error er => .error er
  | .ok is_valid => if is_valid then .ok () else .error .InvalidTssSignature

/-- The `for` loop of `batch_verify_signatures`: verify entries in
order, stopping at the first failure. -/
def batch_loop (recover : RecoverFn) (keccak : KeccakFn)
    (tss_eth_address : List Nat) :
    List ((List Nat × List Nat) × Nat) → Except Err Unit
  | [] => .ok ()
  | e :: rest =>
    match batch_entry recover keccak tss_eth_address e with
    | .error er => .error er
    | .ok _ => batch_loop recover keccak tss_eth_address rest

/-- `batch_verify_signatures` (src/instructions/signature.rs lines
103-150): paused check, equal-length check, batch-size cap of 10, then
per-entry verification short-circuiting on the first failure. -/
def batch_verify_signatures (recover : RecoverFn) (keccak : KeccakFn)
    (config : ProgramConfig) (messages : List (List Nat))
    (signatures : List (List Nat)) (recovery_ids : List Nat) :
    Except Err Unit :=
  if config.is_paused then .error .ProgramPaused
  else if ¬ (messages.length = signatures.length ∧
             messages.length = recovery_ids.length) then
    .error .InvalidMessageFormat
  else if ¬ messages.length ≤ 10 then .error .InvalidMessageFormat
  else
    batch_loop recover keccak (pubkey_to_eth_address config.tss_authority)
      ((messages.zip signatures).zip recovery_ids)

end SigIx

namespace CB

/-- `CircuitState` (src/security/circuit_breaker.rs lines 27-37). -/
inductive CircuitState where
  | Closed
  | HalfOpen
  | Open
  | ManualOverride
  deriving DecidableEq, Repr

/-- `CircuitConfig` (src/security/circuit_breaker.rs lines 39-51).
Counts are `u64` (`Nat`), durations are `i64` seconds (`Int`). -/
structure CircuitConfig where
  failure_threshold : Nat
  failure_window : Int
  min_open_duration : Int
  success_threshold : Nat
  half_open_limit : Nat
  deriving DecidableEq, Repr

/-- `CircuitConfig::default` (src/security/circuit_breaker.rs lines
53-63). -/
def CircuitConfig.default : CircuitConfig :=
  { failure_threshold := 5, failure_window := 300, min_open_duration := 600,
    success_threshold := 3, half_open_limit := 10 }

/-- `CircuitBreaker` account state (src/security/circuit_breaker.rs
lines 6-25). -/
structure CircuitBreaker where
  state : CircuitState
  failure_count : Nat
  success_count : Nat
  window_start : Int
  last_state_change : Int
  config : CircuitConfig
  authority : List Nat
  bump : Nat
  deriving DecidableEq, Repr

/-- `update_window` (lines 199-206): lazily reset the sliding window. -/
def update_window (now : Int) (b : CircuitBreaker) : CircuitBreaker :=
  if now - b.window_start ≥ b.config.failure_window then
    { b with window_start := now, failure_count := 0, success_count := 0 }
  else b

/-- `should_open_circuit` (lines 208-210). -/
def should_open_circuit (b : CircuitBreaker) : Bool :=
  b.failure_count ≥ b.config.failure_threshold

/-- `should_close_circuit` (lines 212-214). -/
def should_close_circuit (b : CircuitBreaker) : Bool :=
  b.success_count ≥ b.config.success_threshold && b.failure_count = 0

/-- `transition_to_open` (lines 216-221). -/
def transition_to_open (now : Int) (b : CircuitBreaker) : CircuitBreaker :=
  { b with state := .Open, last_state_change := now }

/-- `transition_to_half_open` (lines 223-230). -/
def transition_to_half_open (now : Int) (b : CircuitBreaker) : CircuitBreaker :=
  { b with state := .HalfOpen, last_state_change := now,
           failure_count := 0, success_count := 0 }

/-- `transition_to_closed` (lines 232-239). -/
def transition_to_closed (now : Int) (b : CircuitBreaker) : CircuitBreaker :=
  { b with state := .Closed, last_state_change := now,
           failure_count := 0, success_count := 0 }

/-- `check_operation_allowed` (lines 89-134).  Returns the function's
`Result` together with the breaker after its `&mut self` mutations
(`check_operation_allowed` transitions the breaker even on the paths
that return an error). The `operation_type` argument is unused by the
source body and omitted. -/
def check_operation_allowed (now : Int) (b0 : CircuitBreaker) :
    Except Err Unit × CircuitBreaker :=
  let b := update_window now b0
  match b.state with
  | .Closed =>
    if should_open_circuit b then
      (.error .CircuitBreakerOpen, transition_to_open now b)
    else (.ok (), b)
  | .HalfOpen =>
    if b.failure_count + b.success_count ≥ b.config.half_open_limit then
      (.error .CircuitBreakerRateLimit, b)
    else if should_close_circuit b then (.ok (), transition_to_closed now b)
    else if should_open_circuit b then
      (.error .CircuitBreakerOpen, transition_to_open now b)
    else (.ok (), b)
  | .Open =>
    if now - b.last_state_change ≥ b.config.min_open_duration then
      (.ok (), transition_to_half_open now b)
    else (.error .CircuitBreakerOpen, b)
  | .ManualOverride => (.ok (), b)

/-- `record_success` (lines 137-149).  `saturating_add` on a `u64`
count is modelled as capped addition. -/
def record_success (now : Int) (b0 : CircuitBreaker) : CircuitBreaker :=
  let b := update_window now b0
  let b := { b with success_count := min (b.success_count + 1) (2 ^ 64 - 1) }
  if b.state = .HalfOpen ∧ should_close_circuit b then transition_to_closed now b
  else b

/-- `record_failure` (lines 152-164). -/
def record_failure (now : Int) (b0 : CircuitBreaker) : CircuitBreaker :=
  let b := update_window now b0
  let b := { b with failure_count := min (b.failure_count + 1) (2 ^ 64 - 1) }
  if should_open_circuit b then transition_to_open now b else b

/-- A sequence of `record_failure` calls at the given timestamps. -/
def record_failures (ts : List Int) (b : CircuitBreaker) : CircuitBreaker :=
  ts.foldl (fun s t => record_failure t s) b

end CB

namespace FD

/-- `OperationSignature` (src/security/fraud_detection.rs lines 44-60). -/
structure OperationSignature where
  op_type : Nat
  timestamp : Int
  source_chain : Nat
  destination_chain : Nat
  value_hash : Nat
  user_hash : Nat
  risk_score : Nat
  deriving DecidableEq, Repr

/-- The `Default` instance used to zero the ring buffer. -/
def OperationSignature.default : OperationSignature :=
  { op_type := 0, timestamp := 0, source_chain := 0, destination_chain := 0,
    value_hash := 0, user_hash := 0, risk_score := 0 }

/-- `FraudConfig` (src/security/fraud_detection.rs lines 30-42). -/
structure FraudConfig where
  risk_threshold : Nat
  analysis_window : Int
  velocity_threshold : Nat
  min_reputation : Nat
  geo_risk_multiplier : Nat
  deriving DecidableEq, Repr

/-- `FraudConfig::default` (lines 62-72). -/
def FraudConfig.default : FraudConfig :=
  { risk_threshold := 750, analysis_window := 3600, velocity_threshold := 10,
    min_reputation := 500, geo_risk_multiplier := 150 }

/-- `FraudDetectionEngine` account state (lines 7-28).  The 20-slot
array `recent_operations` is a list (its length-20 invariant is a
hypothesis of the theorems that need it). -/
structure FraudDetectionEngine where
  risk_score : Nat
  suspicious_patterns : Nat
  total_operations : Nat
  last_analysis : Int
  config : FraudConfig
  authority : List Nat
  recent_operations : List OperationSignature
  operation_index : Nat
  bump : Nat
  deriving DecidableEq, Repr

/-- `OperationType` (lines 457-463), with its explicit discriminants. -/
inductive FraudOperationType where
  | CrossChainTransfer
  | LocalTransfer
  | Mint
  | Burn
  deriving DecidableEq, Repr

/-- The `as u8` cast of `OperationType` (discriminants 1-4). -/
def FraudOperationType.tag : FraudOperationType → Nat
  | .CrossChainTransfer => 1
  | .LocalTransfer => 2
  | .Mint => 3
  | .Burn => 4

/-- `FraudRecommendation` (lines 465-472). -/
inductive FraudRecommendation where
  | Allow
  | Monitor
  | RequireAdditionalVerification
  | Delay
  | Block
  deriving DecidableEq, Repr

/-- `OperationAnalysisInput` (lines 439-447). -/
structure OperationAnalysisInput where
  operation_type : FraudOperationType
  source_chain_id : Nat
  destination_chain_id : Nat
  value : Nat
  user_address : List Nat
  user_reputation : Option Nat
  route_hops : Option Nat
  deriving DecidableEq, Repr

/-- `FraudAnalysisResult` (lines 449-455). -/
structure FraudAnalysisResult where
  risk_score : Nat
  is_suspicious : Bool
  detected_patterns : Nat
  recommendation : FraudRecommendation
  confidence : Nat
  deriving DecidableEq, Repr

/-- `hash_value` (lines 401-404): XOR of the high and low `u32` halves
of the `u64` value. -/
def hash_value (value : Nat) : Nat := value / 2 ^ 32 % 2 ^ 32 ^^^ value % 2 ^ 32

/-- `hash_address` (lines 406-413): XOR-fold the first four address
bytes into a little-endian `u32`. -/
def hash_address (address : List Nat) : Nat :=
  (address.take 4).enum.foldl
    (fun h ib => h ^^^ ib.2 % 256 * 2 ^ (8 * ib.1)) 0

/-- `analyze_velocity` (lines 188-202): operations in the last 60
seconds, scored 50 per operation over the threshold, capped at 500. -/
def analyze_velocity (e : FraudDetectionEngine) (now : Int) : Nat :=
  let velocity := (e.recent_operations.filter
    (fun op => op.timestamp > now - 60 ∧ op.timestamp > 0)).length
  if velocity > e.config.velocity_threshold then
    min ((velocity - e.config.velocity_threshold) * 50) 500
  else 0

/-- `analyze_chain_pair_risk` (lines 205-221). -/
def analyze_chain_pair_risk (source destination : Nat) : Nat :=
  let high_risk := fun c => c = 99999 ∨ c = 88888 ∨ c = 77777
  let source_risk := if high_risk source then 200 else 0
  let dest_risk := if high_risk destination then 200 else 0
  let combination_risk :=
    if (source = 900 ∧ destination = 1) ∨ (source = 1 ∧ destination = 900) then 50
    else if (source = 900 ∧ destination = 56) ∨ (source = 56 ∧ destination = 900) then 50
    else if (source = 900 ∧ destination = 7000) ∨ (source = 7000 ∧ destination = 900) then 30
    else 100
  min (source_risk + dest_risk + combination_risk) 500

/-- `analyze_value_patterns` (lines 224-235). -/
def analyze_value_patterns (value : Nat) : Nat :=
  let round_number_risk := if value % 1000000 = 0 ∧ value > 0 then 100 else 0
  let high_value_risk := if value > 1000000000000 then 200 else 0
  let exact_amount_risk := if value = 1337 ∨ value = 69420 then 150 else 0
  min (round_number_risk + high_value_risk + exact_amount_risk) 300

/-- The `as u8` hour-of-day used by `analyze_temporal_patterns`:
`((timestamp % 86400) / 3600) as u8` with Rust's truncating `i64`
division and remainder, then the wrapping `u8` cast. -/
def temporal_hour (timestamp : Int) : Nat :=
  (((timestamp.tmod 86400).tdiv 3600).emod 256).toNat

/-- `analyze_temporal_patterns` (lines 238-248).  The source's second
match arm is written `6..=7 | 23..=1`; the wrap-around range is read as
the boundary hours 23, 0 and 1 (per its comment and the spec). -/
def analyze_temporal_patterns (timestamp : Int) : Nat :=
  let hour := temporal_hour timestamp
  if 2 ≤ hour ∧ hour ≤ 5 then 100
  else if (6 ≤ hour ∧ hour ≤ 7) ∨ hour = 23 ∨ hour ≤ 1 then 50
  else 0

/-- `analyze_user_behavior` (lines 251-266): 50 per recent operation by
the same hashed user beyond 5. -/
def analyze_user_behavior (e : FraudDetectionEngine) (user_address : List Nat) : Nat :=
  let user_hash := hash_address user_address
  let user_ops := (e.recent_operations.filter
    (fun op => op.user_hash = user_hash ∧ op.timestamp > 0)).length
  if user_ops > 5 then (user_ops - 5) * 50 else 0

/-- `analyze_route_risk` (lines 269-279): stepped penalty on
`route_hops.unwrap_or(1)`.  The source match covers arms `1`, `2`, `3`
and `4..=u8::MAX`; a hop count of 0 is not covered there and is
modelled as the direct-transfer score 0. -/
def analyze_route_risk (op : OperationAnalysisInput) : Nat :=
  let route_complexity := op.route_hops.getD 1
  if route_complexity ≤ 1 then 0
  else if route_complexity = 2 then 50
  else if route_complexity = 3 then 150
  else 300

/-- `calculate_reputation_risk` (lines 282-288). -/
def calculate_reputation_risk (e : FraudDetectionEngine) (reputation : Option Nat) : Nat :=
  match reputation with
  | some rep => if rep ≥ e.config.min_reputation then 0
                else min (e.config.min_reputation - rep) 400
  | none => 200

/-- `calculate_weighted_risk` (lines 291-317): the source folds the
seven named factors against a fixed weight table (velocity 25,
chain_pair 20, value_pattern 15, temporal 10, behavior 15, route 10,
reputation 5); every factor name is present in the table, so the sum is
over all seven and the total weight is 100. -/
def calculate_weighted_risk (velocity chain value temporal behavior route reputation : Nat) : Nat :=
  (velocity * 25 + chain * 20 + value * 15 + temporal * 10 + behavior * 15 +
   route * 10 + reputation * 5) / 100

/-- `calculate_comprehensive_risk_score` (lines 147-185). -/
def calculate_comprehensive_risk_score (e : FraudDetectionEngine)
    (op : OperationAnalysisInput) (now : Int) : Nat :=
  let velocity_risk := analyze_velocity e now
  let chain_risk := analyze_chain_pair_risk op.source_chain_id op.destination_chain_id
  let value_risk := analyze_value_patterns op.value
  let temporal_risk := analyze_temporal_patterns now
  let behavior_risk := analyze_user_behavior e op.user_address
  let route_risk := analyze_route_risk op
  let reputation_risk := calculate_reputation_risk e op.user_reputation
  min (calculate_weighted_risk velocity_risk chain_risk value_risk temporal_risk
        behavior_risk route_risk reputation_risk) 1000

/-- `detect_rapid_fire_pattern` (lines 342-350). -/
def detect_rapid_fire_pattern (e : FraudDetectionEngine) (now : Int) : Bool :=
  (e.recent_operations.filter
    (fun op => op.timestamp > now - 60 ∧ op.timestamp > 0)).length ≥ 10

/-- `detect_circular_pattern` (lines 352-368). -/
def detect_circular_pattern (e : FraudDetectionEngine) : Bool :=
  (List.range 18).any (fun i =>
    let op1 := e.recent_operations.getD i OperationSignature.default
    let op2 := e.recent_operations.getD (i + 1) OperationSignature.default
    let op3 := e.recent_operations.getD (i + 2) OperationSignature.default
    op1.timestamp > 0 && op2.timestamp > 0 && op3.timestamp > 0 &&
    op1.source_chain = op3.destination_chain &&
    op1.destination_chain = op3.source_chain &&
    op1.user_hash = op2.user_hash && op2.user_hash = op3.user_hash)

/-- `detect_value_manipulation_pattern` (lines 370-385): some value
hash occurs at least 5 times among live entries. -/
def detect_value_manipulation_pattern (e : FraudDetectionEngine) : Bool :=
  let recent_values := (e.recent_operations.filter
    (fun op => op.timestamp > 0)).map (fun op => op.value_hash)
  recent_values.any (fun v => recent_values.count v ≥ 5)

/-- `detect_chain_hopping_pattern` (lines 387-398): at least 5 adjacent
pairs whose chains do not connect. -/
def detect_chain_hopping_pattern (e : FraudDetectionEngine) : Bool :=
  ((e.recent_operations.zip e.recent_operations.tail).filter
    (fun w => w.1.timestamp > 0 ∧ w.2.timestamp > 0 ∧
              w.1.destination_chain ≠ w.2.source_chain)).length ≥ 5

/-- `detect_patterns` (lines 320-340). -/
def detect_patterns (e : FraudDetectionEngine) (now : Int) : Nat :=
  (if detect_rapid_fire_pattern e now then 1 else 0) +
  (if detect_circular_pattern e then 1 else 0) +
  (if detect_value_manipulation_pattern e then 1 else 0) +
  (if detect_chain_hopping_pattern e then 1 else 0)

/-- `update_risk_score` (lines 415-419): EMA with 30% weight on the new
sample (exact in `Nat`: the `u32` intermediate cannot overflow). -/
def update_risk_score (e : FraudDetectionEngine) (new_risk : Nat) : Nat :=
  (e.risk_score * 70 + new_risk * 30) / 100

/-- `get_recommendation` (lines 421-429). -/
def get_recommendation (risk_score : Nat) : FraudRecommendation :=
  if risk_score ≤ 200 then .Allow
  else if risk_score ≤ 500 then .Monitor
  else if risk_score ≤ 750 then .RequireAdditionalVerification
  else if risk_score ≤ 900 then .Delay
  else .Block

/-- `calculate_confidence` (lines 431-436). -/
def calculate_confidence (e : FraudDetectionEngine) : Nat :=
  min (min e.total_operations 100 * 80 / 100 + min e.suspicious_patterns 10 * 20 / 10) 100

/-- `analyze_operation` (lines 100-144): insert the fingerprint into
the ring buffer, advance the cursor mod 20, bump the saturating totals,
score, update the EMA, run the pattern detectors and assemble the
result.  Both `Clock::get` calls in the dynamic extent observe the same
slot timestamp `now`. -/
def analyze_operation (e : FraudDetectionEngine) (op : OperationAnalysisInput)
    (now : Int) : FraudDetectionEngine × FraudAnalysisResult :=
  let signature : OperationSignature :=
    { op_type := op.operation_type.tag, timestamp := now,
      source_chain := op.source_chain_id, destination_chain := op.destination_chain_id,
      value_hash := hash_value op.value, user_hash := hash_address op.user_address,
      risk_score := 0 }
  let e1 := { e with
    recent_operations := e.recent_operations.set e.operation_index signature,
    operation_index := (e.operation_index + 1) % 20,
    total_operations := min (e.total_operations + 1) (2 ^ 64 - 1) }
  let risk_score := calculate_comprehensive_risk_score e1 op now
  let e2 := { e1 with risk_score := update_risk_score e1 risk_score }
  let suspicious_patterns := detect_patterns e2 now
  let e3 := { e2 with
    suspicious_patterns := min (e2.suspicious_patterns + suspicious_patterns) (2 ^ 64 - 1) }
  let result : FraudAnalysisResult :=
    { risk_score := risk_score,
      is_suspicious := risk_score > e3.config.risk_threshold,
      detected_patterns := suspicious_patterns,
      recommendation := get_recommendation risk_score,
      confidence := calculate_confidence e3 }
  ({ e3 with last_analysis := now }, result)

end FD

/-- `u64::checked_add`: `none` on overflow past `2^64 - 1`. -/
def checkedAdd64 (a b : Nat) : Option Nat :=
  if a + b ≤ 2 ^ 64 - 1 then some (a + b) else none

/-- `u8::checked_add`: `none` on overflow past 255. -/
def checkedAdd8 (a b : Nat) : Option Nat :=
  if a + b ≤ 255 then some (a + b) else none

/-- The `as i64` cast of a non-negative-or-negative `f64`, i.e.
truncation toward zero, on the exact rational value. -/
def truncQ (q : ℚ) : Int := if 0 ≤ q then ⌊q⌋ else -⌊-q⌋

namespace Retry

/-- `RetryConfig` (src/recovery/transaction_retry.rs lines 66-84). -/
structure RetryConfig where
  max_attempts : Nat
  initial_delay_seconds : Nat
  backoff_multiplier_bps : Nat
  max_delay_seconds : Nat
  jitter_percentage_bps : Nat
  compute_unit_adjustment_pct : Int
  priority_fee_adjustment_pct : Int
  adaptive_adjustments : Bool
  deriving DecidableEq, Repr

/-- `RetryConfig::default` (lines 540-553). -/
def RetryConfig.default : RetryConfig :=
  { max_attempts := 5, initial_delay_seconds := 2, backoff_multiplier_bps := 20000,
    max_delay_seconds := 60, jitter_percentage_bps := 1000,
    compute_unit_adjustment_pct := 20, priority_fee_adjustment_pct := 50,
    adaptive_adjustments := true }

/-- `RetrySessionStatus` (lines 86-94). -/
inductive RetrySessionStatus where
  | Scheduled
  | InProgress
  | Successful
  | Failed
  | Cancelled
  | Paused
  deriving DecidableEq, Repr

/-- `RetryFailureReason` (lines 96-107). -/
inductive RetryFailureReason where
  | NetworkTimeout
  | InsufficientComputeUnits
  | InsufficientPriorityFee
  | BlockhashExpired
  | AccountNotFound
  | InsufficientFunds
  | SimulationFailed
  | NodeOverloaded
  | UnknownError
  deriving DecidableEq, Repr

/-- `OptimizationType` (lines 123-133). -/
inductive OptimizationType where
  | ComputeUnitIncrease
  | ComputeUnitDecrease
  | PriorityFeeIncrease
  | PriorityFeeDecrease
  | BlockhashRefresh
  | AccountPreloading
  | InstructionBatching
  | EndpointSwitch
  deriving DecidableEq, Repr

/-- `RetryOptimization` (lines 109-121). -/
structure RetryOptimization where
  optimization_type : OptimizationType
  before_value : Nat
  after_value : Nat
  applied_at_attempt : Nat
  was_successful : Bool
  deriving DecidableEq, Repr

/-- `RetrySession` account state (lines 31-64). -/
structure RetrySession where
  session_id : Nat
  original_tx_signature : String
  retry_config : RetryConfig
  current_attempt : Nat
  status : RetrySessionStatus
  failure_reasons : List RetryFailureReason
  started_at : Int
  last_attempt_at : Int
  next_retry_at : Int
  total_retry_time : Nat
  total_compute_units : Nat
  total_fees_spent : Nat
  successful_tx_signature : Option String
  optimizations_applied : List RetryOptimization
  bump : Nat
  deriving DecidableEq, Repr

/-- `TransactionRetryManager` account state (lines 6-29). -/
structure TransactionRetryManager where
  authority : List Nat
  total_retry_attempts : Nat
  successful_retries : Nat
  failed_retries : Nat
  active_retry_sessions : Nat
  max_concurrent_sessions : Nat
  default_config : RetryConfig
  adaptive_retry_enabled : Bool
  last_retry_attempt : Int
  bump : Nat
  deriving DecidableEq, Repr

/-- Type of the adaptive-path delay
(`NetworkConditionAnalyzer::calculate_optimal_parameters(conditions,
reason, attempt).delay_seconds as i64`, lines 153-191): its value uses
the floating-point `(attempt as f64).powf(1.5)`, which has no exact
rational form, so the adaptive branch is a parameter of the embedding
(the claims under verification disable it). -/
def AdaptiveDelayFn : Type := RetryFailureReason → Nat → Int

/-- `calculate_exponential_backoff_delay` (lines 414-428), with the
`f64` arithmetic carried out exactly over `ℚ`:
`delay = initial_delay * multiplier^(attempt-1)` capped at
`max_delay_seconds`, plus the deterministic jitter
`(session_id % 1000)/1000` of the jitter range, truncated to `i64`. -/
def calculate_exponential_backoff_delay (s : RetrySession) : Int :=
  let base_delay : ℚ := s.retry_config.initial_delay_seconds
  let multiplier : ℚ := (s.retry_config.backoff_multiplier_bps : ℚ) / 10000
  let exponential_delay := base_delay * multiplier ^ ((s.current_attempt : Int) - 1)
  let max_delay : ℚ := s.retry_config.max_delay_seconds
  let capped_delay := min exponential_delay max_delay
  let jitter_range := capped_delay * ((s.retry_config.jitter_percentage_bps : ℚ) / 10000)
  let jitter := ((s.session_id % 1000 : Nat) : ℚ) / 1000 * jitter_range
  truncQ (capped_delay + jitter)

/-- `schedule_next_retry` (lines 387-411). -/
def schedule_next_retry (adaptiveDelay : AdaptiveDelayFn) (now : Int)
    (mgr : TransactionRetryManager) (s : RetrySession)
    (failure_reason : Option RetryFailureReason) : RetrySession :=
  let delay :=
    match failure_reason, mgr.adaptive_retry_enabled with
    | some reason, true => adaptiveDelay reason s.current_attempt
    | _, _ => calculate_exponential_backoff_delay s
  { s with next_retry_at := now + delay, status := .Scheduled }

/-- `RetryAttemptResult` (lines 524-532). -/
structure RetryAttemptResult where
  result : Bool
  tx_signature : String
  failure_reason : Option RetryFailureReason
  compute_units_used : Nat
  fees_spent : Nat
  optimization_applied : Option RetryOptimization
  deriving DecidableEq, Repr

/-- `simulate_retry_attempt` (lines 431-478).  The `f64` comparison
`(session_id % 100) as f64 / 100.0 < p` for `p` in {0.3, 0.6, 0.8, 0.9}
is exact: both sides are the correctly rounded doubles of `k/100`, so
it holds iff `session_id % 100 < 100 p`. -/
def simulate_retry_attempt (s : RetrySession) : RetryAttemptResult :=
  let success_probability : Nat :=
    if s.current_attempt = 1 then 30
    else if s.current_attempt = 2 then 60
    else if s.current_attempt = 3 then 80
    else 90
  let is_successful := s.session_id % 100 < success_probability
  if is_successful then
    { result := true,
      tx_signature := "retry_success_" ++ toString s.session_id,
      failure_reason := none,
      compute_units_used := 180000, fees_spent := 5000,
      optimization_applied := some
        { optimization_type := .ComputeUnitIncrease, before_value := 150000,
          after_value := 180000, applied_at_attempt := s.current_attempt,
          was_successful := true } }
  else
    let failure_idx := (s.session_id + s.current_attempt) % 4
    { result := false, tx_signature := "",
      failure_reason := some ([RetryFailureReason.NetworkTimeout,
        .InsufficientComputeUnits, .NodeOverloaded,
        .BlockhashExpired].getD failure_idx .UnknownError),
      compute_units_used := 50000, fees_spent := 2000,
      optimization_applied := none }

/-- `execute_retry_attempt` (lines 315-384): gate on status, schedule
time and attempt budget; bump the attempt counter and statistics; run
the (deterministic) simulated attempt; finalize or reschedule; accrue
the session metrics. -/
def execute_retry_attempt (adaptiveDelay : AdaptiveDelayFn) (now : Int)
    (mgr : TransactionRetryManager) (s : RetrySession) :
    Except Err (TransactionRetryManager × RetrySession × RetryAttemptResult) :=
  if ¬ s.status = .Scheduled then .error .InvalidTransferStatus
  else if ¬ now ≥ s.next_retry_at then .error .InvalidTransferStatus
  else if ¬ s.current_attempt < s.retry_config.max_attempts then
    .error .InvalidTransferStatus
  else
    match checkedAdd8 s.current_attempt 1 with
    | none => .error .ArithmeticOverflow
    | some attempt2 =>
      let s1 := { s with current_attempt := attempt2, status := .InProgress,
                         last_attempt_at := now }
      match checkedAdd64 mgr.total_retry_attempts 1 with
      | none => .error .ArithmeticOverflow
      | some total2 =>
        let mgr1 := { mgr with total_retry_attempts := total2,
                               last_retry_attempt := now }
        let attempt_result := simulate_retry_attempt s1
        let step : Except Err (TransactionRetryManager × RetrySession) :=
          if attempt_result.result then
            match checkedAdd64 mgr1.successful_retries 1 with
            | none => .error .ArithmeticOverflow
            | some succ2 =>
              let mgr2 := { mgr1 with successful_retries := succ2,
                                      active_retry_sessions := mgr1.active_retry_sessions - 1 }
              let sOk := { s1 with status := RetrySessionStatus.Successful,
                                   successful_tx_signature := some attempt_result.tx_signature }
              .ok (mgr2, sOk)
          else
            let s2 :=
              match attempt_result.failure_reason with
              | some reason => { s1 with failure_reasons := s1.failure_reasons ++ [reason] }
              | none => s1
            if s2.current_attempt ≥ s2.retry_config.max_attempts then
              match checkedAdd64 mgr1.failed_retries 1 with
              | none => .error .ArithmeticOverflow
              | some failed2 =>
                let mgr2 := { mgr1 with failed_retries := failed2,
                                        active_retry_sessions := mgr1.active_retry_sessions - 1 }
                .ok (mgr2, { s2 with status := RetrySessionStatus.Failed })
            else
              .ok (mgr1, schedule_next_retry adaptiveDelay now mgr1 s2
                           attempt_result.failure_reason)
        match step with
        | .error e => .error e
        | .ok (mgr2, s3) =>
          match checkedAdd64 s3.total_compute_units attempt_result.compute_units_used,
                checkedAdd64 s3.total_fees_spent attempt_result.fees_spent with
          | some cu2, some fees2 =>
            let s4 := { s3 with total_compute_units := cu2, total_fees_spent := fees2 }
            let s5 :=
              match attempt_result.optimization_applied with
              | some opt => { s4 with optimizations_applied := s4.optimizations_applied ++ [opt] }
              | none => s4
            .ok (mgr2, s5, attempt_result)
          | _, _ => .error .ArithmeticOverflow

end Retry

namespace Reco

/-- `ErrorType` (src/recovery/error_recovery.rs lines 66-80). -/
inductive ErrorType where
  | TransactionFailed
  | NetworkTimeout
  | InsufficientFunds
  | AccountNotFound
  | InvalidSignature
  | ComputeExceeded
  | CrossChainTimeout
  | GatewayUnavailable
  | StateCorruption
  | ConcurrencyConflict
  | SecurityViolation
  | SystemOverload
  deriving DecidableEq, Repr

/-- `RecoveryStrategy` (lines 82-100). -/
inductive RecoveryStrategy where
  | ExponentialBackoff
  | ParameterAdjustment
  | AlternativeExecution
  | RollbackRetry
  | CompensatingTransaction
  | StateReconstruction
  | ManualIntervention
  | GracefulDegradation
  deriving DecidableEq, Repr

/-- `RecoveryStatus` (lines 120-128). -/
inductive RecoveryStatus where
  | InProgress
  | Successful
  | Failed
  | RequiresManualIntervention
  | Cancelled
  | TimedOut
  deriving DecidableEq, Repr

/-- `ActionType` (lines 144-156). -/
inductive ActionType where
  | RetryTransaction
  | AdjustComputeLimit
  | AdjustPriorityFee
  | SwitchRpcEndpoint
  | RefreshBlockhash
  | RecreateAccounts
  | ValidateState
  | CompensateUser
  | NotifyUser
  | EscalateToManual
  deriving DecidableEq, Repr

/-- `ActionResult` (lines 158-164). -/
inductive ActionResult where
  | Success
  | PartialSuccess
  | Failed
  | Skipped
  deriving DecidableEq, Repr

/-- `RecoveryResult` (lines 178-184). -/
inductive RecoveryResult where
  | FullRecovery
  | PartialRecovery
  | CompensatedFailure
  | UnrecoverableFailure
  deriving DecidableEq, Repr

/-- `CompensationType` (lines 198-204). -/
inductive CompensationType where
  | FeeRefund
  | TokenCompensation
  | ServiceCredit
  | PriorityAccess
  deriving DecidableEq, Repr

/-- `OperationContext` (lines 102-118). -/
structure OperationContext where
  operation_type : String
  user : List Nat
  nft_mint : Option (List Nat)
  target_chain : Option Nat
  failed_signature : Option String
  compute_units_used : Nat
  fees_paid : Nat
  deriving DecidableEq, Repr

/-- `RecoveryAction` (lines 130-142). -/
structure RecoveryAction where
  action_type : ActionType
  timestamp : Int
  parameters : String
  result : ActionResult
  compute_units : Nat
  deriving DecidableEq, Repr

/-- `Compensation` (lines 186-196). -/
structure Compensation where
  compensation_type : CompensationType
  amount : Nat
  token_mint : Option (List Nat)
  reason : String
  deriving DecidableEq, Repr

/-- `RecoveryOutcome` (lines 166-176). -/
structure RecoveryOutcome where
  result : RecoveryResult
  new_signature : Option String
  compensation : Option Compensation
  lessons_learned : String
  deriving DecidableEq, Repr

/-- `ResourceUsage` (lines 206-216). -/
structure ResourceUsage where
  compute_units : Nat
  fees_spent : Nat
  duration_seconds : Nat
  network_requests : Nat
  deriving DecidableEq, Repr

/-- `RecoverySession` account state (lines 35-64). -/
structure RecoverySession where
  session_id : Nat
  original_error : ErrorType
  recovery_strategy : RecoveryStrategy
  operation_context : OperationContext
  attempts_made : Nat
  max_attempts : Nat
  status : RecoveryStatus
  started_at : Int
  completed_at : Option Int
  actions_taken : List RecoveryAction
  outcome : Option RecoveryOutcome
  resources_consumed : ResourceUsage
  bump : Nat
  deriving DecidableEq, Repr

/-- `ErrorRecoveryManager` account state (lines 6-33). -/
structure ErrorRecoveryManager where
  authority : List Nat
  total_recovery_attempts : Nat
  successful_recoveries : Nat
  failed_recoveries : Nat
  active_recovery_sessions : Nat
  max_concurrent_sessions : Nat
  recovery_success_rate_bps : Nat
  auto_recovery_enabled : Bool
  aggressive_mode : Bool
  last_recovery_attempt : Int
  stats_reset_at : Int
  bump : Nat
  deriving DecidableEq, Repr

/-- `determine_recovery_strategy` (lines 420-444). -/
def determine_recovery_strategy (error_type : ErrorType)
    (context : OperationContext) : RecoveryStrategy :=
  match error_type with
  | .TransactionFailed =>
    if context.compute_units_used > 150000 then .ParameterAdjustment
    else .ExponentialBackoff
  | .NetworkTimeout => .ExponentialBackoff
  | .InsufficientFunds => .CompensatingTransaction
  | .ComputeExceeded => .ParameterAdjustment
  | .CrossChainTimeout => .AlternativeExecution
  | .GatewayUnavailable => .GracefulDegradation
  | .StateCorruption => .StateReconstruction
  | .ConcurrencyConflict => .RollbackRetry
  | .SecurityViolation => .ManualIntervention
  | .SystemOverload => .GracefulDegradation
  | _ => .ExponentialBackoff

/-- `calculate_max_attempts` (lines 447-462). -/
def calculate_max_attempts (mgr : ErrorRecoveryManager) (error_type : ErrorType) : Nat :=
  let base_attempts : Nat :=
    match error_type with
    | .NetworkTimeout => 5
    | .TransactionFailed => 3
    | .ComputeExceeded => 2
    | .CrossChainTimeout => 4
    | .SecurityViolation => 1
    | _ => 3
  if mgr.aggressive_mode then min (base_attempts * 2) 10 else base_attempts

/-- `calculate_compensation` (lines 532-564).  The `fees_paid * 2` for
an unrecoverable failure is a plain `u64` multiplication, which wraps
mod `2^64` in the release builds Solana programs ship as. -/
def calculate_compensation (session : RecoverySession)
    (result : RecoveryResult) : Option Compensation :=
  match result with
  | .FullRecovery => none
  | .PartialRecovery => some
    { compensation_type := .ServiceCredit,
      amount := session.operation_context.fees_paid / 2,
      token_mint := none, reason := "Partial service disruption" }
  | .CompensatedFailure => some
    { compensation_type := .FeeRefund,
      amount := session.operation_context.fees_paid,
      token_mint := none,
      reason := "Operation failed despite recovery attempts" }
  | .UnrecoverableFailure => some
    { compensation_type := .TokenCompensation,
      amount := session.operation_context.fees_paid * 2 % 2 ^ 64,
      token_mint := none, reason := "Unrecoverable system failure" }

/-- `generate_lessons_learned` (lines 567-575). -/
def generate_lessons_learned (session : RecoverySession) : String :=
  match session.original_error with
  | .ComputeExceeded => "Consider implementing dynamic compute limit adjustment"
  | .NetworkTimeout => "Evaluate network reliability and implement redundant endpoints"
  | .CrossChainTimeout => "Optimize cross-chain message routing and timeouts"
  | .StateCorruption => "Enhance state validation and backup frequency"
  | _ => "Continue monitoring for pattern recognition"

/-- `update_success_rate` (lines 578-583). -/
def update_success_rate (mgr : ErrorRecoveryManager) : ErrorRecoveryManager :=
  let total := mgr.successful_recoveries + mgr.failed_recoveries
  if total > 0 then
    { mgr with recovery_success_rate_bps := mgr.successful_recoveries * 10000 / total }
  else mgr

/-- `complete_recovery_session` (lines 375-417): set the terminal
status, stamp completion, attach the outcome (with its compensation and
lessons), and update manager statistics. -/
def complete_recovery_session (now : Int) (mgr : ErrorRecoveryManager)
    (session : RecoverySession) (result : RecoveryResult) :
    Except Err (ErrorRecoveryManager × RecoverySession) :=
  let status : RecoveryStatus :=
    match result with
    | .FullRecovery | .PartialRecovery => .Successful
    | .CompensatedFailure => .Failed
    | .UnrecoverableFailure => .Failed
  let s1 := { session with
    status := status,
    completed_at := some now,
    resources_consumed := { session.resources_consumed with
      duration_seconds := ((now - session.started_at).emod (2 ^ 64)).toNat } }
  let oc : RecoveryOutcome :=
    { result := result, new_signature := none,
      compensation := calculate_compensation s1 result,
      lessons_learned := generate_lessons_learned s1 }
  let s2 := { s1 with outcome := some oc }
  let mgr1 := { mgr with active_recovery_sessions := mgr.active_recovery_sessions - 1 }
  let counted : Except Err ErrorRecoveryManager :=
    match result with
    | .FullRecovery | .PartialRecovery =>
      match checkedAdd64 mgr1.successful_recoveries 1 with
      | none => .error .ArithmeticOverflow
      | some n => .ok { mgr1 with successful_recoveries := n }
    | _ =>
      match checkedAdd64 mgr1.failed_recoveries 1 with
      | none => .error .ArithmeticOverflow
      | some n => .ok { mgr1 with failed_recoveries := n }
  match counted with
  | .error e => .error e
  | .ok mgr2 => .ok (update_success_rate mgr2, s2)

end Reco

/-- The spec's message bytes, written from its words: the fixed,
order-sensitive concatenation
nonce ∥ destination-chain-id ∥ recipient-bytes ∥ amount ∥ opaque-payload
with numeric fields as `u64` little-endian. -/
def spec_message_bytes (nonce chain_id : Nat) (recipient : List Nat)
    (amount : Nat) (data : List Nat) : List Nat :=
  u64le nonce ++ u64le chain_id ++ recipient ++ u64le amount ++ data

/-- Decode a little-endian byte list back to the value it encodes. -/
def leVal (l : List Nat) : Nat := l.foldr (fun b acc => b + 256 * acc) 0

theorem leVal_u64le (n : Nat) : leVal (u64le n) = n % 2 ^ 64 := by
  simp only [u64le, List.range_succ, List.map_append, List.map_cons, List.map_nil,
    List.range_zero, leVal, List.foldr_append, List.foldr_cons, List.foldr_nil]
  omega

theorem u64le_inj {n m : Nat} (h : u64le n = u64le m) : n % 2 ^ 64 = m % 2 ^ 64 := by
  rw [← leVal_u64le n, ← leVal_u64le m, h]

theorem u64le_length (n : Nat) : (u64le n).length = 8 := by
  simp [u64le]

theorem spec_message_bytes_take8 (n c a : Nat) (r d : List Nat) :
    (spec_message_bytes n c r a d).take 8 = u64le n := by
  unfold spec_message_bytes
  simp only [List.append_assoc]
  exact List.take_left' (u64le_length n)

theorem spec_message_bytes_nonce_inj {n m c a : Nat} {r d : List Nat}
    (h : spec_message_bytes n c r a d = spec_message_bytes m c r a d) :
    n % 2 ^ 64 = m % 2 ^ 64 := by
  apply u64le_inj
  rw [← spec_message_bytes_take8 n c a r d, ← spec_message_bytes_take8 m c a r d, h]

/-- C7: the digest produced by `hash_message` is the hash (SHA-256) of
the fixed, order-sensitive concatenation
nonce ∥ chain-id ∥ recipient ∥ amount ∥ data with `u64` little-endian
numeric fields; equal inputs give equal digests, and inputs that differ
in the nonce field (mod `2^64`) produce different hash inputs.  (The
claim's stronger reading — any differing field gives a different digest
— fails at the recipient/data boundary; see the counterexample.) -/
theorem c7_hash_message_concatenation (n n2 c a : Nat) (r d : List Nat)
    (hne : n % 2 ^ 64 ≠ n2 % 2 ^ 64) :
    SignatureUtils.hash_message n c r a d = Sha256.sha256 (spec_message_bytes n c r a d)
    ∧ spec_message_bytes n c r a d ≠ spec_message_bytes n2 c r a d := by
  constructor
  · rfl
  · intro h
    exact hne (spec_message_bytes_nonce_inj h)

theorem c7_witness :
    SignatureUtils.hash_message 1 7000 [1, 2, 3] 4 [9] =
      Sha256.sha256 (spec_message_bytes 1 7000 [1, 2, 3] 4 [9])
    ∧ spec_message_bytes 1 7000 [1, 2, 3] 4 [9] ≠ spec_message_bytes 2 7000 [1, 2, 3] 4 [9] :=
  c7_hash_message_concatenation 1 2 7000 4 [1, 2, 3] [9] (by decide)

/-- C7 counterexample: the inputs `(recipient, amount, data) =
([0], 5, [9])` and `([0,5], 9*2^56, [])` differ in the recipient, amount
and payload fields, yet — the variable-length fields carrying no length
prefix — the concatenation, and hence the digest, is identical. -/
theorem c7_counterexample :
    SignatureUtils.hash_message 1 7000 [0] 5 [9] =
      SignatureUtils.hash_message 1 7000 [0, 5] 648518346341351424 []
    ∧ ([0] : List Nat) ≠ [0, 5] := by
  constructor
  · show Sha256.sha256 (u64le 1 ++ u64le 7000 ++ [0] ++ u64le 5 ++ [9]) =
      Sha256.sha256 (u64le 1 ++ u64le 7000 ++ [0, 5] ++ u64le 648518346341351424 ++ [])
    exact congrArg Sha256.sha256 (by decide)
  · decide

/-- C9: the fraud recommendation is the step function of the
instantaneous risk score: Allow for scores up to 200, Monitor up to
500, RequireAdditionalVerification up to 750, Delay up to 900, and
Block above 900. -/
theorem c9_recommendation_step_function (s : Nat) :
    (s ≤ 200 → FD.get_recommendation s = .Allow)
    ∧ (200 < s → s ≤ 500 → FD.get_recommendation s = .Monitor)
    ∧ (500 < s → s ≤ 750 → FD.get_recommendation s = .RequireAdditionalVerification)
    ∧ (750 < s → s ≤ 900 → FD.get_recommendation s = .Delay)
    ∧ (900 < s → FD.get_recommendation s = .Block) := by
  unfold FD.get_recommendation
  refine ⟨fun h1 => ?_, fun h1 h2 => ?_, fun h1 h2 => ?_, fun h1 h2 => ?_, fun h1 => ?_⟩ <;>
    split_ifs <;> first | rfl | omega

theorem c9_witness :
    FD.get_recommendation 200 = .Allow ∧ FD.get_recommendation 201 = .Monitor
    ∧ FD.get_recommendation 750 = .RequireAdditionalVerification
    ∧ FD.get_recommendation 900 = .Delay ∧ FD.get_recommendation 901 = .Block :=
  ⟨(c9_recommendation_step_function 200).1 (by decide),
   (c9_recommendation_step_function 201).2.1 (by decide) (by decide),
   (c9_recommendation_step_function 750).2.2.1 (by decide) (by decide),
   (c9_recommendation_step_function 900).2.2.2.1 (by decide) (by decide),
   (c9_recommendation_step_function 901).2.2.2.2 (by decide)⟩

/-- C2: `verify_ecdsa_signature` fails with the public-key-recovery
error exactly when the recovery primitive rejects the
signature/recovery-id pair; when recovery yields a public key, it
returns (without error) the boolean comparison of the key's Ethereum
address — the last 20 bytes of the Keccak-256 hash of the uncompressed
key — against the 20-byte address derived from the configured TSS
authority, so `ok true` holds iff those addresses coincide and a
mismatch is `ok false`, not an error. -/
theorem c2_verify_ecdsa_signature_spec (recover : RecoverFn) (keccak : KeccakFn)
    (mh sig : List Nat) (rid : Nat) (tss : List Nat) :
    (SignatureUtils.verify_ecdsa_signature recover keccak mh sig rid
        (SigIx.pubkey_to_eth_address tss) = .error .PublicKeyRecoveryFailed
      ↔ recover mh rid sig = none)
    ∧ (SignatureUtils.verify_ecdsa_signature recover keccak mh sig rid
        (SigIx.pubkey_to_eth_address tss) = .ok true
      ↔ ∃ pk, recover mh rid sig = some pk ∧
          (keccak pk).drop 12 = SigIx.pubkey_to_eth_address tss)
    ∧ (∀ pk, recover mh rid sig = some pk →
        (keccak pk).drop 12 ≠ SigIx.pubkey_to_eth_address tss →
        SignatureUtils.verify_ecdsa_signature recover keccak mh sig rid
          (SigIx.pubkey_to_eth_address tss) = .ok false) := by
  unfold SignatureUtils.verify_ecdsa_signature SignatureUtils.pubkey_to_ethereum_address
  cases hrec : recover mh rid sig with
  | none =>
    exact ⟨by simp, by simp, fun pk hpk _ => absurd hpk (by simp)⟩
  | some pk =>
    refine ⟨by simp, ?_, ?_⟩
    · constructor
      · intro h
        refine ⟨pk, rfl, ?_⟩
        by_contra hne
        simp [hne] at h
      · rintro ⟨pk2, hpk2, heq⟩
        injection hpk2 with h2
        subst h2
        simp [heq]
    · intro pk2 hpk2 hne
      injection hpk2 with h2
      subst h2
      simp [hne]

theorem c2_witness :
    SignatureUtils.verify_ecdsa_signature
      (fun _ _ _ => some (List.replicate 64 7)) (fun _ => List.replicate 32 9)
      [] [] 0 (SigIx.pubkey_to_eth_address (List.replicate 32 9)) = .ok true :=
  (c2_verify_ecdsa_signature_spec (fun _ _ _ => some (List.replicate 64 7))
    (fun _ => List.replicate 32 9) [] [] 0 (List.replicate 32 9)).2.1.mpr
    ⟨List.replicate 64 7, rfl, by decide⟩

/-- C1 (amended): for a non-paused config, a submitted nonce ≤ the
stored nonce fails with `NonceMismatch` and leaves the stored config
unchanged; any failure of the call leaves the stored config unchanged;
and on success the only state change is that the stored nonce becomes
the submitted nonce, which happens exactly when the nonce was fresh and
signature verification succeeded. -/
theorem c1_nonce_replay_atomicity (recover : RecoverFn) (keccak : KeccakFn)
    (c : ProgramConfig) (nonce chain_id amount rid : Nat)
    (recipient data signature : List Nat)
    (hp : c.is_paused = false) :
    (nonce ≤ c.nonce →
      SigIx.verify_cross_chain_message recover keccak c nonce chain_id recipient
          amount data signature rid = .error .NonceMismatch
      ∧ SigIx.apply_verify_cross_chain_message recover keccak c nonce chain_id
          recipient amount data signature rid = c)
    ∧ (∀ e, SigIx.verify_cross_chain_message recover keccak c nonce chain_id
          recipient amount data signature rid = .error e →
        SigIx.apply_verify_cross_chain_message recover keccak c nonce chain_id
          recipient amount data signature rid = c)
    ∧ (∀ c2, SigIx.verify_cross_chain_message recover keccak c nonce chain_id
          recipient amount data signature rid = .ok c2 →
        c2 = { c with nonce := nonce } ∧ c.nonce < nonce ∧
        SignatureUtils.verify_ecdsa_signature recover keccak
          (SignatureUtils.hash_message nonce chain_id recipient amount data)
          signature rid (SigIx.pubkey_to_eth_address c.tss_authority) = .ok true) := by
  refine ⟨fun hle => ?_, fun e he => ?_, fun c2 hok => ?_⟩
  · have : SigIx.verify_cross_chain_message recover keccak c nonce chain_id recipient
        amount data signature rid = .error .NonceMismatch := by
      unfold SigIx.verify_cross_chain_message
      rw [hp]
      simp only [Bool.false_eq_true, if_false]
      rw [if_pos (by omega)]
    exact ⟨this, by unfold SigIx.apply_verify_cross_chain_message; rw [this]⟩
  · unfold SigIx.apply_verify_cross_chain_message
    rw [he]
  · unfold SigIx.verify_cross_chain_message at hok
    rw [hp] at hok
    simp only [Bool.false_eq_true, if_false] at hok
    by_cases hn : ¬ nonce > c.nonce
    · rw [if_pos hn] at hok
      cases hok
    · rw [if_neg hn] at hok
      cases hcid : CrossChainUtils.validate_chain_id chain_id with
      | error e => rw [hcid] at hok; cases hok
      | ok b =>
        rw [hcid] at hok
        cases hrcp : CrossChainUtils.validate_recipient recipient with
        | error e => rw [hrcp] at hok; cases hok
        | ok b2 =>
          rw [hrcp] at hok
          cases hv : SignatureUtils.verify_ecdsa_signature recover keccak
              (SignatureUtils.hash_message nonce chain_id recipient amount data)
              signature rid (SigIx.pubkey_to_eth_address c.tss_authority) with
          | error e => rw [hv] at hok; cases hok
          | ok is_valid =>
            rw [hv] at hok
            cases is_valid with
            | false => simp at hok
            | true =>
              simp at hok
              refine ⟨?_, by omega, rfl⟩
              rw [hp]
              exact hok.symm

theorem c1_witness :
    SigIx.verify_cross_chain_message (fun _ _ _ => none) (fun _ => [])
      ⟨[], [], [], 5, 0, false⟩ 3 7000 [] 0 [] [] 0 = .error .NonceMismatch :=
  ((c1_nonce_replay_atomicity (fun _ _ _ => none) (fun _ => [])
      ⟨[], [], [], 5, 0, false⟩ 3 7000 0 0 [] [] [] rfl).1 (by decide)).1

/-- C1 counterexample: with the program paused and submitted nonce
0 ≤ stored nonce 0, the call fails with `ProgramPaused`, not with
`NonceMismatch` as the claim states for every call. -/
theorem c1_counterexample :
    SigIx.verify_cross_chain_message (fun _ _ _ => none) (fun _ => [])
      ⟨[], [], [], 0, 0, true⟩ 0 7000 [] 0 [] [] 0 = .error .ProgramPaused
    ∧ Err.ProgramPaused ≠ Err.NonceMismatch :=
  ⟨rfl, by decide⟩

theorem batch_loop_ok_iff (recover : RecoverFn) (keccak : KeccakFn)
    (tss : List Nat) (l : List ((List Nat × List Nat) × Nat)) :
    SigIx.batch_loop recover keccak tss l = .ok () ↔
      ∀ e ∈ l, SigIx.batch_entry recover keccak tss e = .ok () := by
  induction l with
  | nil => simp [SigIx.batch_loop]
  | cons e rest ih =>
    unfold SigIx.batch_loop
    cases he : SigIx.batch_entry recover keccak tss e with
    | error er => simp [he]
    | ok u =>
      cases u
      simp [he, ih]

theorem batch_loop_error (recover : RecoverFn) (keccak : KeccakFn)
    (tss : List Nat) (l : List ((List Nat × List Nat) × Nat)) (er : Err)
    (h : SigIx.batch_loop recover keccak tss l = .error er) :
    ∃ pre e post, l = pre ++ e :: post ∧
      (∀ x ∈ pre, SigIx.batch_entry recover keccak tss x = .ok ()) ∧
      SigIx.batch_entry recover keccak tss e = .error er := by
  induction l with
  | nil => simp [SigIx.batch_loop] at h
  | cons e rest ih =>
    unfold SigIx.batch_loop at h
    cases he : SigIx.batch_entry recover keccak tss e with
    | error er2 =>
      rw [he] at h
      cases h
      exact ⟨[], e, rest, rfl, by simp, he⟩
    | ok u =>
      cases u
      rw [he] at h
      obtain ⟨pre, e2, post, hsplit, hpre, he2⟩ := ih h
      refine ⟨e :: pre, e2, post, by simp [hsplit], ?_, he2⟩
      intro x hx
      cases hx with
      | head => exact he
      | tail _ hx2 => exact hpre x hx2

/-- C4 (amended): for a non-paused config, `batch_verify_signatures`
fails with `InvalidMessageFormat` whenever the three arrays have
unequal lengths or more than 10 entries; within those bounds it
verifies the entries in order, succeeding iff every entry verifies, and
failing with the error of the first bad entry (recovery failure, or
`InvalidTssSignature` on address mismatch) after all entries before it
verified.  An empty batch passes the format checks and succeeds
trivially — the source has no emptiness check (see counterexample). -/
theorem c4_batch_verify_format_and_order (recover : RecoverFn) (keccak : KeccakFn)
    (c : ProgramConfig) (messages signatures : List (List Nat)) (recovery_ids : List Nat)
    (hp : c.is_paused = false) :
    (¬ (messages.length = signatures.length ∧ messages.length = recovery_ids.length) →
      SigIx.batch_verify_signatures recover keccak c messages signatures recovery_ids
        = .error .InvalidMessageFormat)
    ∧ (messages.length = signatures.length → messages.length = recovery_ids.length →
       10 < messages.length →
      SigIx.batch_verify_signatures recover keccak c messages signatures recovery_ids
        = .error .InvalidMessageFormat)
    ∧ (messages.length = signatures.length → messages.length = recovery_ids.length →
       messages.length ≤ 10 →
      (SigIx.batch_verify_signatures recover keccak c messages signatures recovery_ids
          = .ok ()
        ↔ ∀ e ∈ (messages.zip signatures).zip recovery_ids,
            SigIx.batch_entry recover keccak
              (SigIx.pubkey_to_eth_address c.tss_authority) e = .ok ())
      ∧ ∀ er, SigIx.batch_verify_signatures recover keccak c messages signatures
            recovery_ids = .error er →
          ∃ pre e post, (messages.zip signatures).zip recovery_ids = pre ++ e :: post ∧
            (∀ x ∈ pre, SigIx.batch_entry recover keccak
              (SigIx.pubkey_to_eth_address c.tss_authority) x = .ok ()) ∧
            SigIx.batch_entry recover keccak
              (SigIx.pubkey_to_eth_address c.tss_authority) e = .error er) := by
  unfold SigIx.batch_verify_signatures
  rw [hp]
  simp only [Bool.false_eq_true, if_false]
  refine ⟨fun hne => ?_, fun h1 h2 h3 => ?_, fun h1 h2 h3 => ?_⟩
  · rw [if_pos hne]
  · rw [if_neg (by exact fun h => h ⟨h1, h2⟩), if_pos (by omega)]
  · rw [if_neg (by exact fun h => h ⟨h1, h2⟩), if_neg (by omega)]
    exact ⟨batch_loop_ok_iff recover keccak _ _,
           fun er => batch_loop_error recover keccak _ _ er⟩

theorem c4_witness :
    SigIx.batch_verify_signatures (fun _ _ _ => none) (fun _ => [])
      ⟨[], [], [], 0, 0, false⟩ [[1]] [] [] = .error .InvalidMessageFormat :=
  (c4_batch_verify_format_and_order (fun _ _ _ => none) (fun _ => [])
    ⟨[], [], [], 0, 0, false⟩ [[1]] [] [] rfl).1 (by decide)

/-- C4 counterexample: an empty batch (all three arrays empty) is
accepted — the call returns `ok`, not the `InvalidMessageFormat` error
the claim requires for empty inputs. -/
theorem c4_counterexample :
    SigIx.batch_verify_signatures (fun _ _ _ => none) (fun _ => [])
      ⟨[], [], [], 0, 0, false⟩ [] [] [] = .ok ()
    ∧ (Except.ok () : Except Err Unit) ≠ .error .InvalidMessageFormat :=
  ⟨rfl, by simp⟩

theorem calculate_compensation_fees_only (s s2 : Reco.RecoverySession)
    (r : Reco.RecoveryResult)
    (hfees : s2.operation_context.fees_paid = s.operation_context.fees_paid) :
    Reco.calculate_compensation s2 r = Reco.calculate_compensation s r := by
  cases r <;> simp [Reco.calculate_compensation, hfees]

theorem complete_recovery_session_ok_compensation (now : Int)
    (mgr : Reco.ErrorRecoveryManager) (s : Reco.RecoverySession)
    (result : Reco.RecoveryResult) (mgr2 : Reco.ErrorRecoveryManager)
    (s2 : Reco.RecoverySession)
    (h : Reco.complete_recovery_session now mgr s result = .ok (mgr2, s2)) :
    (s2.outcome.map fun o => o.compensation) =
      some (Reco.calculate_compensation s result) := by
  unfold Reco.complete_recovery_session at h
  cases result with
  | FullRecovery =>
    cases hadd : checkedAdd64 mgr.successful_recoveries 1 with
    | none => simp [hadd] at h
    | some n =>
      simp only [hadd] at h
      simp only [Except.ok.injEq, Prod.mk.injEq] at h
      obtain ⟨h1, h2⟩ := h
      subst h2
      simp only [Option.map_some, Option.map_some', Option.some.injEq]
      exact calculate_compensation_fees_only _ _ _ rfl
  | PartialRecovery =>
    cases hadd : checkedAdd64 mgr.successful_recoveries 1 with
    | none => simp [hadd] at h
    | some n =>
      simp only [hadd] at h
      simp only [Except.ok.injEq, Prod.mk.injEq] at h
      obtain ⟨h1, h2⟩ := h
      subst h2
      simp only [Option.map_some, Option.map_some', Option.some.injEq]
      exact calculate_compensation_fees_only _ _ _ rfl
  | CompensatedFailure =>
    cases hadd : checkedAdd64 mgr.failed_recoveries 1 with
    | none => simp [hadd] at h
    | some n =>
      simp only [hadd] at h
      simp only [Except.ok.injEq, Prod.mk.injEq] at h
      obtain ⟨h1, h2⟩ := h
      subst h2
      simp only [Option.map_some, Option.map_some', Option.some.injEq]
      exact calculate_compensation_fees_only _ _ _ rfl
  | UnrecoverableFailure =>
    cases hadd : checkedAdd64 mgr.failed_recoveries 1 with
    | none => simp [hadd] at h
    | some n =>
      simp only [hadd] at h
      simp only [Except.ok.injEq, Prod.mk.injEq] at h
      obtain ⟨h1, h2⟩ := h
      subst h2
      simp only [Option.map_some, Option.map_some', Option.some.injEq]
      exact calculate_compensation_fees_only _ _ _ rfl

/-- C8: on completing a recovery session the outcome's compensation is
a function of the result and the failed operation's `fees_paid` only:
no compensation for FullRecovery, half the fees as a service credit for
PartialRecovery, the full fees as a fee refund for CompensatedFailure,
and twice the fees (as the wrapping `u64` product, which equals
`2 * fees_paid` whenever that does not overflow) for
UnrecoverableFailure. -/
theorem c8_compensation_from_fees (now : Int) (mgr : Reco.ErrorRecoveryManager)
    (s : Reco.RecoverySession) (result : Reco.RecoveryResult)
    (mgr2 : Reco.ErrorRecoveryManager) (s2 : Reco.RecoverySession)
    (h : Reco.complete_recovery_session now mgr s result = .ok (mgr2, s2)) :
    (result = .FullRecovery → (s2.outcome.map fun o => o.compensation) = some none)
    ∧ (result = .PartialRecovery → (s2.outcome.map fun o => o.compensation) =
        some (some ⟨.ServiceCredit, s.operation_context.fees_paid / 2, none,
          "Partial service disruption"⟩))
    ∧ (result = .CompensatedFailure → (s2.outcome.map fun o => o.compensation) =
        some (some ⟨.FeeRefund, s.operation_context.fees_paid, none,
          "Operation failed despite recovery attempts"⟩))
    ∧ (result = .UnrecoverableFailure → (s2.outcome.map fun o => o.compensation) =
        some (some ⟨.TokenCompensation, s.operation_context.fees_paid * 2 % 2 ^ 64, none,
          "Unrecoverable system failure"⟩))
    ∧ (result = .UnrecoverableFailure → s.operation_context.fees_paid * 2 < 2 ^ 64 →
        (s2.outcome.map fun o => o.compensation) =
        some (some ⟨.TokenCompensation, s.operation_context.fees_paid * 2, none,
          "Unrecoverable system failure"⟩))
    ∧ (∀ s3 : Reco.RecoverySession,
        s3.operation_context.fees_paid = s.operation_context.fees_paid →
        Reco.calculate_compensation s3 result = Reco.calculate_compensation s result) := by
  have hc := complete_recovery_session_ok_compensation now mgr s result mgr2 s2 h
  refine ⟨fun hr => ?_, fun hr => ?_, fun hr => ?_, fun hr => ?_, fun hr hlt => ?_,
    fun s3 hf => calculate_compensation_fees_only s s3 result hf⟩ <;>
    subst hr <;> rw [hc] <;> simp [Reco.calculate_compensation]
  omega

theorem c8_witness :
    (((⟨1, .InsufficientFunds, .CompensatingTransaction,
        ⟨"transfer", [], none, none, none, 0, 600⟩, 1, 1, .Successful, 0,
        some 10, [],
        some ⟨.PartialRecovery, none,
          some ⟨.ServiceCredit, 300, none, "Partial service disruption"⟩,
          "Continue monitoring for pattern recognition"⟩,
        ⟨0, 0, 10, 0⟩, 0⟩ : Reco.RecoverySession).outcome.map
      fun o => o.compensation)) =
      some (some ⟨.ServiceCredit, 600 / 2, none, "Partial service disruption"⟩) :=
  (c8_compensation_from_fees 10
    ⟨[], 0, 0, 0, 1, 4, 10000, true, false, 0, 0, 0⟩
    ⟨1, .InsufficientFunds, .CompensatingTransaction,
      ⟨"transfer", [], none, none, none, 0, 600⟩, 1, 1, .InProgress, 0,
      none, [], none, ⟨0, 0, 0, 0⟩, 0⟩
    .PartialRecovery
    ⟨[], 0, 1, 0, 0, 4, 10000, true, false, 0, 0, 0⟩
    ⟨1, .InsufficientFunds, .CompensatingTransaction,
      ⟨"transfer", [], none, none, none, 0, 600⟩, 1, 1, .Successful, 0,
      some 10, [],
      some ⟨.PartialRecovery, none,
        some ⟨.ServiceCredit, 300, none, "Partial service disruption"⟩,
        "Continue monitoring for pattern recognition"⟩,
      ⟨0, 0, 10, 0⟩, 0⟩ rfl).2.1 rfl

theorem update_window_id (b : CB.CircuitBreaker) (t : Int)
    (hwt : t - b.window_start < b.config.failure_window) :
    CB.update_window t b = b := by
  unfold CB.update_window
  rw [if_neg (by omega)]

theorem record_failure_step (b : CB.CircuitBreaker) (t : Int)
    (hwt : t - b.window_start < b.config.failure_window) :
    CB.record_failure t b =
      if b.config.failure_threshold ≤ min (b.failure_count + 1) (2 ^ 64 - 1) then
        { b with failure_count := min (b.failure_count + 1) (2 ^ 64 - 1),
                 state := .Open, last_state_change := t }
      else { b with failure_count := min (b.failure_count + 1) (2 ^ 64 - 1) } := by
  simp only [CB.record_failure]
  rw [update_window_id b t hwt]
  simp only [CB.should_open_circuit, CB.transition_to_open, ge_iff_le, decide_eq_true_eq]

theorem record_failures_open (ts : List Int) (b : CB.CircuitBreaker)
    (hw : ∀ t ∈ ts, t - b.window_start < b.config.failure_window)
    (hthr : b.config.failure_threshold ≤ 2 ^ 64 - 1)
    (hcnt : b.config.failure_threshold ≤ b.failure_count + ts.length)
    (hne : ts ≠ []) :
    (CB.record_failures ts b).state = .Open := by
  induction ts generalizing b with
  | nil => cases hne rfl
  | cons t rest ih =>
    have hwt := hw t (by simp)
    have hstep : CB.record_failures (t :: rest) b =
        CB.record_failures rest (CB.record_failure t b) := rfl
    rw [hstep, record_failure_step b t hwt]
    simp only [List.length_cons] at hcnt
    by_cases hrest : rest = []
    · subst hrest
      simp only [List.length_nil] at hcnt
      rw [if_pos (by omega)]
      rfl
    · split_ifs with hge
      · exact ih _ (fun x hx => hw x (List.mem_cons_of_mem t hx)) hthr
          (by simp only [List.length_cons]; omega) hrest
      · exact ih _ (fun x hx => hw x (List.mem_cons_of_mem t hx)) hthr
          (by simp only [List.length_cons]; omega) hrest

theorem check_operation_allowed_open (now : Int) (b2 : CB.CircuitBreaker)
    (h : b2.state = .Open) :
    CB.check_operation_allowed now b2 =
      if b2.config.min_open_duration ≤ now - b2.last_state_change then
        (.ok (), CB.transition_to_half_open now (CB.update_window now b2))
      else (.error .CircuitBreakerOpen, CB.update_window now b2) := by
  have hs : (CB.update_window now b2).state = .Open := by
    unfold CB.update_window
    split_ifs <;> exact h
  have hl : (CB.update_window now b2).last_state_change = b2.last_state_change := by
    unfold CB.update_window
    split_ifs <;> rfl
  have hc : (CB.update_window now b2).config = b2.config := by
    unfold CB.update_window
    split_ifs <;> rfl
  unfold CB.check_operation_allowed
  simp only [hs, hl, hc, ge_iff_le]

/-- C3: from Closed, recording `failure_threshold` failures within a
single failure window always transitions the breaker to Open; and from
Open, an admission check transitions to HalfOpen exactly when at least
`min_open_duration` seconds have elapsed since entering Open — before
that deadline the check is rejected with `CircuitBreakerOpen` and the
breaker stays Open. -/
theorem c3_closed_to_open_and_open_dwell (b b2 : CB.CircuitBreaker)
    (ts : List Int) (now : Int)
    (hclosed : b.state = .Closed) (hzero : b.failure_count = 0)
    (hlen : ts.length = b.config.failure_threshold)
    (hpos : 1 ≤ b.config.failure_threshold)
    (hthr : b.config.failure_threshold ≤ 2 ^ 64 - 1)
    (hw : ∀ t ∈ ts, t - b.window_start < b.config.failure_window)
    (hopen2 : b2.state = .Open) :
    (CB.record_failures ts b).state = .Open
    ∧ (b2.config.min_open_duration ≤ now - b2.last_state_change →
        (CB.check_operation_allowed now b2).1 = .ok ()
        ∧ (CB.check_operation_allowed now b2).2.state = .HalfOpen)
    ∧ (now - b2.last_state_change < b2.config.min_open_duration →
        (CB.check_operation_allowed now b2).1 = .error .CircuitBreakerOpen
        ∧ (CB.check_operation_allowed now b2).2.state = .Open) := by
  refine ⟨?_, ?_, ?_⟩
  · refine record_failures_open ts b hw hthr (by omega) ?_
    intro hnil
    rw [hnil] at hlen
    simp at hlen
    omega
  · intro hdur
    rw [check_operation_allowed_open now b2 hopen2, if_pos hdur]
    exact ⟨rfl, rfl⟩
  · intro hdur
    rw [check_operation_allowed_open now b2 hopen2, if_neg (by omega)]
    refine ⟨rfl, ?_⟩
    show (CB.update_window now b2).state = .Open
    unfold CB.update_window
    split_ifs <;> exact hopen2

theorem c3_witness :
    (CB.record_failures [10, 20, 30, 40, 50]
      ⟨.Closed, 0, 0, 0, 0, CB.CircuitConfig.default, [], 0⟩).state = .Open
    ∧ (CB.check_operation_allowed 700
        ⟨.Open, 0, 0, 0, 0, CB.CircuitConfig.default, [], 0⟩).1 = .ok ()
    ∧ (CB.check_operation_allowed 700
        ⟨.Open, 0, 0, 0, 0, CB.CircuitConfig.default, [], 0⟩).2.state = .HalfOpen
    ∧ (CB.check_operation_allowed 300
        ⟨.Open, 0, 0, 0, 0, CB.CircuitConfig.default, [], 0⟩).1
        = .error .CircuitBreakerOpen :=
  ⟨(c3_closed_to_open_and_open_dwell
      ⟨.Closed, 0, 0, 0, 0, CB.CircuitConfig.default, [], 0⟩
      ⟨.Open, 0, 0, 0, 0, CB.CircuitConfig.default, [], 0⟩
      [10, 20, 30, 40, 50] 700 rfl rfl (by decide) (by decide) (by decide)
      (by decide) rfl).1,
   ((c3_closed_to_open_and_open_dwell
      ⟨.Closed, 0, 0, 0, 0, CB.CircuitConfig.default, [], 0⟩
      ⟨.Open, 0, 0, 0, 0, CB.CircuitConfig.default, [], 0⟩
      [10, 20, 30, 40, 50] 700 rfl rfl (by decide) (by decide) (by decide)
      (by decide) rfl).2.1 (by decide)).1,
   ((c3_closed_to_open_and_open_dwell
      ⟨.Closed, 0, 0, 0, 0, CB.CircuitConfig.default, [], 0⟩
      ⟨.Open, 0, 0, 0, 0, CB.CircuitConfig.default, [], 0⟩
      [10, 20, 30, 40, 50] 700 rfl rfl (by decide) (by decide) (by decide)
      (by decide) rfl).2.1 (by decide)).2,
   ((c3_closed_to_open_and_open_dwell
      ⟨.Closed, 0, 0, 0, 0, CB.CircuitConfig.default, [], 0⟩
      ⟨.Open, 0, 0, 0, 0, CB.CircuitConfig.default, [], 0⟩
      [10, 20, 30, 40, 50] 300 rfl rfl (by decide) (by decide) (by decide)
      (by decide) rfl).2.2 (by decide)).1⟩

/-- C5 (amended): in the HalfOpen state, within the current window: an
admission check is rejected with the rate-limit error once
failures + successes reach the half-open cap; below the cap the check
transitions to Closed exactly when the success count has reached
`success_threshold` with zero failures (and so does `record_success`,
counting its own increment); and a recorded failure transitions the
breaker to Open exactly when the window's failure count reaches
`failure_threshold` — a failure below the threshold leaves the breaker
HalfOpen rather than opening it. -/
theorem c5_half_open_behavior (b : CB.CircuitBreaker) (now : Int)
    (hho : b.state = .HalfOpen)
    (hwin : now - b.window_start < b.config.failure_window)
    (hsatf : b.failure_count + 1 ≤ 2 ^ 64 - 1)
    (hsats : b.success_count + 1 ≤ 2 ^ 64 - 1) :
    (b.config.half_open_limit ≤ b.failure_count + b.success_count →
      CB.check_operation_allowed now b = (.error .CircuitBreakerRateLimit, b))
    ∧ (b.failure_count + b.success_count < b.config.half_open_limit →
      ((CB.check_operation_allowed now b).2.state = .Closed ↔
        (b.config.success_threshold ≤ b.success_count ∧ b.failure_count = 0)))
    ∧ ((CB.record_success now b).state = .Closed ↔
        (b.config.success_threshold ≤ b.success_count + 1 ∧ b.failure_count = 0))
    ∧ ((CB.record_failure now b).state = .Open ↔
        b.config.failure_threshold ≤ b.failure_count + 1) := by
  have hupd := update_window_id b now hwin
  refine ⟨fun hcap => ?_, fun hcap => ?_, ?_, ?_⟩
  · unfold CB.check_operation_allowed
    simp only [hupd, hho, ge_iff_le]
    rw [if_pos hcap]
  · unfold CB.check_operation_allowed
    simp only [hupd, hho, ge_iff_le]
    rw [if_neg (by omega)]
    cases hclose : CB.should_close_circuit b with
    | true =>
      rw [if_pos rfl]
      simp only [CB.should_close_circuit, Bool.and_eq_true, decide_eq_true_eq,
        ge_iff_le] at hclose
      exact iff_of_true rfl hclose
    | false =>
      rw [if_neg (by simp)]
      have hmpr : ¬ (b.config.success_threshold ≤ b.success_count ∧
          b.failure_count = 0) := by
        intro hrhs
        simp [CB.should_close_circuit, ge_iff_le, hrhs.1, hrhs.2] at hclose
      cases hopen : CB.should_open_circuit b with
      | true =>
        rw [if_pos rfl]
        exact iff_of_false (by simp [CB.transition_to_open]) hmpr
      | false =>
        rw [if_neg (by simp)]
        refine iff_of_false ?_ hmpr
        rw [hho]
        simp
  · unfold CB.record_success
    simp only [hupd]
    have hmin : min (b.success_count + 1) (2 ^ 64 - 1) = b.success_count + 1 := by
      omega
    by_cases h : b.config.success_threshold ≤ b.success_count + 1 ∧
        b.failure_count = 0
    · rw [if_pos ⟨hho, by simp [CB.should_close_circuit, ge_iff_le, h.2] <;> omega⟩]
      exact iff_of_true rfl h
    · rw [if_neg ?hcond]
      case hcond =>
        intro hc
        simp only [CB.should_close_circuit, Bool.and_eq_true, decide_eq_true_eq,
          ge_iff_le, hmin] at hc
        exact h ⟨hc.2.1, hc.2.2⟩
      refine iff_of_false ?_ h
      rw [show ({ b with success_count := min (b.success_count + 1) (2 ^ 64 - 1) } :
          CB.CircuitBreaker).state = b.state from rfl, hho]
      simp
  · rw [record_failure_step b now hwin]
    have hmin : min (b.failure_count + 1) (2 ^ 64 - 1) = b.failure_count + 1 := by
      omega
    rw [hmin]
    split_ifs with h
    · simp [h]
    · refine iff_of_false ?_ h
      rw [show ({ b with failure_count := b.failure_count + 1 } :
          CB.CircuitBreaker).state = b.state from rfl, hho]
      simp

theorem c5_witness :
    CB.check_operation_allowed 100
      ⟨.HalfOpen, 4, 6, 0, 0, CB.CircuitConfig.default, [], 0⟩ =
      (.error .CircuitBreakerRateLimit,
       ⟨.HalfOpen, 4, 6, 0, 0, CB.CircuitConfig.default, [], 0⟩)
    ∧ (CB.check_operation_allowed 100
        ⟨.HalfOpen, 0, 3, 0, 0, CB.CircuitConfig.default, [], 0⟩).2.state = .Closed
    ∧ (CB.record_success 100
        ⟨.HalfOpen, 0, 2, 0, 0, CB.CircuitConfig.default, [], 0⟩).state = .Closed
    ∧ (CB.record_failure 100
        ⟨.HalfOpen, 4, 0, 0, 0, CB.CircuitConfig.default, [], 0⟩).state = .Open :=
  ⟨(c5_half_open_behavior ⟨.HalfOpen, 4, 6, 0, 0, CB.CircuitConfig.default, [], 0⟩
      100 rfl (by decide) (by decide) (by decide)).1 (by decide),
   ((c5_half_open_behavior ⟨.HalfOpen, 0, 3, 0, 0, CB.CircuitConfig.default, [], 0⟩
      100 rfl (by decide) (by decide) (by decide)).2.1 (by decide)).mpr
      ⟨by decide, rfl⟩,
   (c5_half_open_behavior ⟨.HalfOpen, 0, 2, 0, 0, CB.CircuitConfig.default, [], 0⟩
      100 rfl (by decide) (by decide) (by decide)).2.2.1.mpr ⟨by decide, rfl⟩,
   (c5_half_open_behavior ⟨.HalfOpen, 4, 0, 0, 0, CB.CircuitConfig.default, [], 0⟩
      100 rfl (by decide) (by decide) (by decide)).2.2.2.mpr (by decide)⟩

/-- C5 counterexample: a single new failure in the HalfOpen state (with
the default `failure_threshold` of 5 and no prior failures in the
window) leaves the breaker HalfOpen — it does not transition to Open as
the claim states for any new failure. -/
theorem c5_counterexample :
    (CB.record_failure 0
      ⟨.HalfOpen, 0, 0, 0, 0, CB.CircuitConfig.default, [], 0⟩).state = .HalfOpen
    ∧ CB.CircuitState.HalfOpen ≠ .Open := by
  constructor
  · decide
  · decide

theorem analyze_velocity_le (e : FD.FraudDetectionEngine) (now : Int) :
    FD.analyze_velocity e now ≤ 500 := by
  simp only [FD.analyze_velocity]
  split_ifs
  · exact min_le_right _ _
  · exact Nat.zero_le _

theorem analyze_chain_pair_risk_le (s d : Nat) :
    FD.analyze_chain_pair_risk s d ≤ 500 := by
  unfold FD.analyze_chain_pair_risk
  exact min_le_right _ _

theorem analyze_value_patterns_le (v : Nat) : FD.analyze_value_patterns v ≤ 300 := by
  unfold FD.analyze_value_patterns
  exact min_le_right _ _

theorem analyze_temporal_patterns_le (t : Int) :
    FD.analyze_temporal_patterns t ≤ 100 := by
  simp only [FD.analyze_temporal_patterns]
  split_ifs <;> omega

theorem analyze_user_behavior_le (e : FD.FraudDetectionEngine) (addr : List Nat)
    (hlen : e.recent_operations.length = 20) :
    FD.analyze_user_behavior e addr ≤ 750 := by
  simp only [FD.analyze_user_behavior]
  have hcount := List.length_filter_le
    (fun op => decide (op.user_hash = FD.hash_address addr ∧ op.timestamp > 0))
    e.recent_operations
  rw [hlen] at hcount
  split_ifs <;> omega

theorem analyze_route_risk_le (op : FD.OperationAnalysisInput) :
    FD.analyze_route_risk op ≤ 300 := by
  simp only [FD.analyze_route_risk]
  split_ifs <;> omega

theorem calculate_reputation_risk_le (e : FD.FraudDetectionEngine)
    (rep : Option Nat) : FD.calculate_reputation_risk e rep ≤ 400 := by
  cases rep with
  | none => simp [FD.calculate_reputation_risk]
  | some r =>
    simp only [FD.calculate_reputation_risk]
    split_ifs
    · omega
    · exact min_le_right _ _

theorem calculate_weighted_risk_le (v c val t beh r rep : Nat)
    (hv : v ≤ 500) (hc : c ≤ 500) (hval : val ≤ 300) (ht : t ≤ 100)
    (hb : beh ≤ 750) (hr : r ≤ 300) (hrep : rep ≤ 400) :
    FD.calculate_weighted_risk v c val t beh r rep ≤ 442 := by
  unfold FD.calculate_weighted_risk
  have h1 : v * 25 + c * 20 + val * 15 + t * 10 + beh * 15 + r * 10 + rep * 5
      ≤ 44250 := by omega
  calc (v * 25 + c * 20 + val * 15 + t * 10 + beh * 15 + r * 10 + rep * 5) / 100
      ≤ 44250 / 100 := Nat.div_le_div_right h1
    _ = 442 := by norm_num

theorem comprehensive_risk_le (e : FD.FraudDetectionEngine)
    (op : FD.OperationAnalysisInput) (now : Int)
    (hlen : e.recent_operations.length = 20) :
    FD.calculate_comprehensive_risk_score e op now ≤ 442 := by
  unfold FD.calculate_comprehensive_risk_score
  refine le_trans (min_le_left _ _) ?_
  exact calculate_weighted_risk_le _ _ _ _ _ _ _
    (analyze_velocity_le e now)
    (analyze_chain_pair_risk_le op.source_chain_id op.destination_chain_id)
    (analyze_value_patterns_le op.value)
    (analyze_temporal_patterns_le now)
    (analyze_user_behavior_le e op.user_address hlen)
    (analyze_route_risk_le op)
    (calculate_reputation_risk_le e op.user_reputation)

theorem recommendation_of_le_442 (s : Nat) (h : s ≤ 442) :
    FD.get_recommendation s = .Allow ∨ FD.get_recommendation s = .Monitor := by
  unfold FD.get_recommendation
  split_ifs with h1 h2
  · exact Or.inl rfl
  · exact Or.inr rfl
  all_goals omega

/-- C10: with the 20-slot ring buffer, every instantaneous risk score
produced by `analyze_operation` is at most 442 (each sub-score is
bounded — velocity 500, chain-pair 500, value 300, temporal 100,
user-behavior 750, route 300, reputation 400 — and the weighted blend
divides by the total weight 100), so the per-analysis recommendation is
always Allow or Monitor and `is_suspicious` is false under the default
risk threshold of 750. -/
theorem c10_risk_score_bounded (e : FD.FraudDetectionEngine)
    (op : FD.OperationAnalysisInput) (now : Int)
    (hlen : e.recent_operations.length = 20) :
    (FD.analyze_operation e op now).2.risk_score ≤ 442
    ∧ ((FD.analyze_operation e op now).2.recommendation = .Allow ∨
       (FD.analyze_operation e op now).2.recommendation = .Monitor)
    ∧ (e.config.risk_threshold = 750 →
       (FD.analyze_operation e op now).2.is_suspicious = false) := by
  have h442 : (FD.analyze_operation e op now).2.risk_score ≤ 442 := by
    show FD.calculate_comprehensive_risk_score
      { e with
        recent_operations := e.recent_operations.set e.operation_index
          { op_type := op.operation_type.tag, timestamp := now,
            source_chain := op.source_chain_id,
            destination_chain := op.destination_chain_id,
            value_hash := FD.hash_value op.value,
            user_hash := FD.hash_address op.user_address, risk_score := 0 },
        operation_index := (e.operation_index + 1) % 20,
        total_operations := min (e.total_operations + 1) (2 ^ 64 - 1) } op now ≤ 442
    exact comprehensive_risk_le _ op now (by simpa using hlen)
  refine ⟨h442, ?_, fun hthr => ?_⟩
  · exact recommendation_of_le_442 _ h442
  · show decide ((FD.analyze_operation e op now).2.risk_score >
      e.config.risk_threshold) = false
    simp only [hthr, gt_iff_lt, decide_eq_false_iff_not, not_lt]
    omega

theorem c10_witness :
    (FD.analyze_operation
      ⟨0, 0, 0, 0, FD.FraudConfig.default, [],
        List.replicate 20 FD.OperationSignature.default, 0, 0⟩
      ⟨.CrossChainTransfer, 900, 1, 1000, [1, 2, 3, 4], some 600, some 1⟩
      28800).2.risk_score ≤ 442
    ∧ ((FD.analyze_operation
        ⟨0, 0, 0, 0, FD.FraudConfig.default, [],
          List.replicate 20 FD.OperationSignature.default, 0, 0⟩
        ⟨.CrossChainTransfer, 900, 1, 1000, [1, 2, 3, 4], some 600, some 1⟩
        28800).2.recommendation = .Allow ∨
       (FD.analyze_operation
        ⟨0, 0, 0, 0, FD.FraudConfig.default, [],
          List.replicate 20 FD.OperationSignature.default, 0, 0⟩
        ⟨.CrossChainTransfer, 900, 1, 1000, [1, 2, 3, 4], some 600, some 1⟩
        28800).2.recommendation = .Monitor)
    ∧ (FD.analyze_operation
        ⟨0, 0, 0, 0, FD.FraudConfig.default, [],
          List.replicate 20 FD.OperationSignature.default, 0, 0⟩
        ⟨.CrossChainTransfer, 900, 1, 1000, [1, 2, 3, 4], some 600, some 1⟩
        28800).2.is_suspicious = false :=
  ⟨(c10_risk_score_bounded _ _ 28800 (by simp)).1,
   (c10_risk_score_bounded _ _ 28800 (by simp)).2.1,
   (c10_risk_score_bounded _ _ 28800 (by simp)).2.2 rfl⟩

theorem truncQ_le_truncQ {a b : ℚ} (ha : 0 ≤ a) (hab : a ≤ b) :
    truncQ a ≤ truncQ b := by
  unfold truncQ
  rw [if_pos ha, if_pos (le_trans ha hab)]
  exact Int.floor_le_floor hab

theorem checkedAdd8_some {a b c : Nat} (h : checkedAdd8 a b = some c) :
    c = a + b := by
  unfold checkedAdd8 at h
  split_ifs at h
  injection h with h2
  exact h2.symm

theorem checkedAdd64_some {a b c : Nat} (h : checkedAdd64 a b = some c) :
    c = a + b := by
  unfold checkedAdd64 at h
  split_ifs at h
  injection h with h2
  exact h2.symm

theorem schedule_next_retry_eq (ad : Retry.AdaptiveDelayFn) (n : Int)
    (m : Retry.TransactionRetryManager) (ss : Retry.RetrySession)
    (fr : Option Retry.RetryFailureReason) :
    Retry.schedule_next_retry ad n m ss fr = { ss with
      next_retry_at := n +
        (match fr, m.adaptive_retry_enabled with
         | some reason, true => ad reason ss.current_attempt
         | _, _ => Retry.calculate_exponential_backoff_delay ss),
      status := .Scheduled } := rfl

theorem execute_retry_attempt_ok_inversion (ad : Retry.AdaptiveDelayFn) (now : Int)
    (mgr : Retry.TransactionRetryManager) (s : Retry.RetrySession)
    (mgr2 : Retry.TransactionRetryManager) (s2 : Retry.RetrySession)
    (res : Retry.RetryAttemptResult)
    (h : Retry.execute_retry_attempt ad now mgr s = .ok (mgr2, s2, res)) :
    s2.current_attempt = s.current_attempt + 1 ∧
    s2.retry_config = s.retry_config ∧
    s.current_attempt < s.retry_config.max_attempts := by
  simp only [Retry.execute_retry_attempt] at h
  split_ifs at h with h1 h2 h3

  rcases hadd : checkedAdd8 s.current_attempt 1 with _ | a2
  · rw [hadd] at h
    simp at h
  · rw [hadd] at h
    have ha2 : a2 = s.current_attempt + 1 := checkedAdd8_some hadd
    rcases hadd64 : checkedAdd64 mgr.total_retry_attempts 1 with _ | t2
    · rw [hadd64] at h
      simp at h
    · rw [hadd64] at h
      simp only [] at h
      set s1 : Retry.RetrySession :=
        { s with current_attempt := a2, status := .InProgress,
                 last_attempt_at := now } with hs1
      by_cases hr : (Retry.simulate_retry_attempt s1).result = true
      · rw [if_pos hr] at h
        rcases hsucc : checkedAdd64 mgr.successful_retries 1 with _ | sc
        · rw [hsucc] at h
          simp at h
        · rw [hsucc] at h
          simp only [] at h
          rcases hcu : checkedAdd64 s.total_compute_units
              (Retry.simulate_retry_attempt s1).compute_units_used with _ | cu
          · rw [hcu] at h
            simp at h
          · rw [hcu] at h
            rcases hfees : checkedAdd64 s.total_fees_spent
                (Retry.simulate_retry_attempt s1).fees_spent with _ | fees
            · rw [hfees] at h
              simp at h
            · rw [hfees] at h
              simp only [] at h
              rcases hopt : (Retry.simulate_retry_attempt s1).optimization_applied
                  with _ | opt
              · rw [hopt] at h
                simp only [Except.ok.injEq, Prod.mk.injEq] at h
                obtain ⟨hm, hs, hres2⟩ := h
                subst hs
                exact ⟨ha2, rfl, h3⟩
              · rw [hopt] at h
                simp only [Except.ok.injEq, Prod.mk.injEq] at h
                obtain ⟨hm, hs, hres2⟩ := h
                subst hs
                exact ⟨ha2, rfl, h3⟩
      · rw [if_neg hr] at h
        rcases hfr : (Retry.simulate_retry_attempt s1).failure_reason with _ | reason
        · rw [hfr] at h
          simp only [] at h
          by_cases hge : a2 ≥ s.retry_config.max_attempts
          · rw [if_pos hge] at h
            rcases hfail : checkedAdd64 mgr.failed_retries 1 with _ | fl
            · rw [hfail] at h
              simp at h
            · rw [hfail] at h
              simp only [] at h
              rcases hcu : checkedAdd64 s.total_compute_units
                  (Retry.simulate_retry_attempt s1).compute_units_used with _ | cu
              · rw [hcu] at h
                simp at h
              · rw [hcu] at h
                rcases hfees : checkedAdd64 s.total_fees_spent
                    (Retry.simulate_retry_attempt s1).fees_spent with _ | fees
                · rw [hfees] at h
                  simp at h
                · rw [hfees] at h
                  simp only [] at h
                  rcases hopt : (Retry.simulate_retry_attempt s1).optimization_applied
                      with _ | opt
                  · rw [hopt] at h
                    simp only [Except.ok.injEq, Prod.mk.injEq] at h
                    obtain ⟨hm, hs, hres2⟩ := h
                    subst hs
                    exact ⟨ha2, rfl, h3⟩
                  · rw [hopt] at h
                    simp only [Except.ok.injEq, Prod.mk.injEq] at h
                    obtain ⟨hm, hs, hres2⟩ := h
                    subst hs
                    exact ⟨ha2, rfl, h3⟩
          · rw [if_neg hge] at h
            rw [schedule_next_retry_eq] at h
            simp only [] at h
            rcases hcu : checkedAdd64 s.total_compute_units
                (Retry.simulate_retry_attempt s1).compute_units_used with _ | cu
            · rw [hcu] at h
              simp at h
            · rw [hcu] at h
              rcases hfees : checkedAdd64 s.total_fees_spent
                  (Retry.simulate_retry_attempt s1).fees_spent with _ | fees
              · rw [hfees] at h
                simp at h
              · rw [hfees] at h
                simp only [] at h
                rcases hopt : (Retry.simulate_retry_attempt s1).optimization_applied
                    with _ | opt
                · rw [hopt] at h
                  simp only [Except.ok.injEq, Prod.mk.injEq] at h
                  obtain ⟨hm, hs, hres2⟩ := h
                  subst hs
                  exact ⟨ha2, rfl, h3⟩
                · rw [hopt] at h
                  simp only [Except.ok.injEq, Prod.mk.injEq] at h
                  obtain ⟨hm, hs, hres2⟩ := h
                  subst hs
                  exact ⟨ha2, rfl, h3⟩
        · rw [hfr] at h
          simp only [] at h
          by_cases hge : a2 ≥ s.retry_config.max_attempts
          · rw [if_pos hge] at h
            rcases hfail : checkedAdd64 mgr.failed_retries 1 with _ | fl
            · rw [hfail] at h
              simp at h
            · rw [hfail] at h
              simp only [] at h
              rcases hcu : checkedAdd64 s.total_compute_units
                  (Retry.simulate_retry_attempt s1).compute_units_used with _ | cu
              · rw [hcu] at h
                simp at h
              · rw [hcu] at h
                rcases hfees : checkedAdd64 s.total_fees_spent
                    (Retry.simulate_retry_attempt s1).fees_spent with _ | fees
                · rw [hfees] at h
                  simp at h
                · rw [hfees] at h
                  simp only [] at h
                  rcases hopt : (Retry.simulate_retry_attempt s1).optimization_applied
                      with _ | opt
                  · rw [hopt] at h
                    simp only [Except.ok.injEq, Prod.mk.injEq] at h
                    obtain ⟨hm, hs, hres2⟩ := h
                    subst hs
                    exact ⟨ha2, rfl, h3⟩
                  · rw [hopt] at h
                    simp only [Except.ok.injEq, Prod.mk.injEq] at h
                    obtain ⟨hm, hs, hres2⟩ := h
                    subst hs
                    exact ⟨ha2, rfl, h3⟩
          · rw [if_neg hge] at h
            rw [schedule_next_retry_eq] at h
            simp only [] at h
            rcases hcu : checkedAdd64 s.total_compute_units
                (Retry.simulate_retry_attempt s1).compute_units_used with _ | cu
            · rw [hcu] at h
              simp at h
            · rw [hcu] at h
              rcases hfees : checkedAdd64 s.total_fees_spent
                  (Retry.simulate_retry_attempt s1).fees_spent with _ | fees
              · rw [hfees] at h
                simp at h
              · rw [hfees] at h
                simp only [] at h
                rcases hopt : (Retry.simulate_retry_attempt s1).optimization_applied
                    with _ | opt
                · rw [hopt] at h
                  simp only [Except.ok.injEq, Prod.mk.injEq] at h
                  obtain ⟨hm, hs, hres2⟩ := h
                  subst hs
                  exact ⟨ha2, rfl, h3⟩
                · rw [hopt] at h
                  simp only [Except.ok.injEq, Prod.mk.injEq] at h
                  obtain ⟨hm, hs, hres2⟩ := h
                  subst hs
                  exact ⟨ha2, rfl, h3⟩

theorem calculate_exponential_backoff_delay_eq (ss : Retry.RetrySession) :
    Retry.calculate_exponential_backoff_delay ss =
      truncQ (min ((ss.retry_config.initial_delay_seconds : ℚ) *
            ((ss.retry_config.backoff_multiplier_bps : ℚ) / 10000) ^
              ((ss.current_attempt : Int) - 1))
          (ss.retry_config.max_delay_seconds : ℚ) +
        ((ss.session_id % 1000 : Nat) : ℚ) / 1000 *
          (min ((ss.retry_config.initial_delay_seconds : ℚ) *
              ((ss.retry_config.backoff_multiplier_bps : ℚ) / 10000) ^
                ((ss.current_attempt : Int) - 1))
            (ss.retry_config.max_delay_seconds : ℚ) *
            ((ss.retry_config.jitter_percentage_bps : ℚ) / 10000))) := rfl

/-- C6: with adaptive retry disabled and a backoff multiplier of at
least 1.0x (10000 bps): rescheduling uses the exponential-backoff
delay; the delay before attempt `n` is the capped exponential
`min (initial_delay * multiplier^(n-1)) max_delay` plus a bounded
non-negative jitter of at most `jitter_percentage_bps` of the capped
delay (so within the claim's ±10% default bound), truncated to `i64`;
successive attempt delays are non-decreasing; `execute_retry_attempt`
errors whenever `current_attempt` has reached `max_attempts`; and a
successful execution advances `current_attempt` by exactly one while
keeping it within `max_attempts`, so no session executes more than
`max_attempts` attempts.  The `f64` arithmetic is modelled exactly over
`ℚ`. -/
theorem c6_backoff_monotone_and_attempt_cap (ad : Retry.AdaptiveDelayFn)
    (now : Int) (mgr : Retry.TransactionRetryManager) (s : Retry.RetrySession)
    (fr : Option Retry.RetryFailureReason) (n m : Nat)
    (hadaptive : mgr.adaptive_retry_enabled = false)
    (hmult : 10000 ≤ s.retry_config.backoff_multiplier_bps)
    (h1n : 1 ≤ n) (hnm : n ≤ m) :
    (Retry.schedule_next_retry ad now mgr s fr =
      { s with next_retry_at := now + Retry.calculate_exponential_backoff_delay s,
               status := .Scheduled })
    ∧ Retry.calculate_exponential_backoff_delay { s with current_attempt := n } ≤
        Retry.calculate_exponential_backoff_delay { s with current_attempt := m }
    ∧ (∃ j : ℚ, 0 ≤ j ∧
        j ≤ min ((s.retry_config.initial_delay_seconds : ℚ) *
              ((s.retry_config.backoff_multiplier_bps : ℚ) / 10000) ^ ((n : Int) - 1))
            (s.retry_config.max_delay_seconds : ℚ) *
            ((s.retry_config.jitter_percentage_bps : ℚ) / 10000) ∧
        Retry.calculate_exponential_backoff_delay { s with current_attempt := n } =
          truncQ (min ((s.retry_config.initial_delay_seconds : ℚ) *
              ((s.retry_config.backoff_multiplier_bps : ℚ) / 10000) ^ ((n : Int) - 1))
            (s.retry_config.max_delay_seconds : ℚ) + j))
    ∧ (s.retry_config.max_attempts ≤ s.current_attempt →
        Retry.execute_retry_attempt ad now mgr s = .error .InvalidTransferStatus)
    ∧ (∀ mgr2 s2 res,
        Retry.execute_retry_attempt ad now mgr s = .ok (mgr2, s2, res) →
        s2.current_attempt = s.current_attempt + 1 ∧
        s2.current_attempt ≤ s2.retry_config.max_attempts ∧
        s2.retry_config = s.retry_config) := by
  have hM : (1 : ℚ) ≤ (s.retry_config.backoff_multiplier_bps : ℚ) / 10000 := by
    rw [le_div_iff (by norm_num)]
    norm_num
    exact_mod_cast hmult
  have hM0 : (0 : ℚ) ≤ (s.retry_config.backoff_multiplier_bps : ℚ) / 10000 :=
    le_trans zero_le_one hM
  have hB0 : (0 : ℚ) ≤ (s.retry_config.initial_delay_seconds : ℚ) := Nat.cast_nonneg _
  have hcap0 : ∀ k : Nat, (0 : ℚ) ≤
      min ((s.retry_config.initial_delay_seconds : ℚ) *
        ((s.retry_config.backoff_multiplier_bps : ℚ) / 10000) ^ ((k : Int) - 1))
        (s.retry_config.max_delay_seconds : ℚ) := by
    intro k
    exact le_min (mul_nonneg hB0 (zpow_nonneg hM0 _)) (Nat.cast_nonneg _)
  have hJ0 : (0 : ℚ) ≤ (s.retry_config.jitter_percentage_bps : ℚ) / 10000 := by
    positivity
  have hsid0 : (0 : ℚ) ≤ ((s.session_id % 1000 : Nat) : ℚ) / 1000 := by positivity
  have hsid1 : ((s.session_id % 1000 : Nat) : ℚ) / 1000 ≤ 1 := by
    rw [div_le_one (by norm_num)]
    have : s.session_id % 1000 < 1000 := Nat.mod_lt _ (by norm_num)
    exact_mod_cast this.le
  refine ⟨?_, ?_, ?_, ?_, ?_⟩
  · cases fr with
    | none => rw [schedule_next_retry_eq]
    | some reason => rw [schedule_next_retry_eq, hadaptive]
  · rw [calculate_exponential_backoff_delay_eq, calculate_exponential_backoff_delay_eq]
    simp only []
    have hcapmono :
        min ((s.retry_config.initial_delay_seconds : ℚ) *
          ((s.retry_config.backoff_multiplier_bps : ℚ) / 10000) ^ ((n : Int) - 1))
          (s.retry_config.max_delay_seconds : ℚ) ≤
        min ((s.retry_config.initial_delay_seconds : ℚ) *
          ((s.retry_config.backoff_multiplier_bps : ℚ) / 10000) ^ ((m : Int) - 1))
          (s.retry_config.max_delay_seconds : ℚ) := by
      refine min_le_min ?_ le_rfl
      refine mul_le_mul_of_nonneg_left ?_ hB0
      exact zpow_le_zpow_right₀ hM (by omega)
    refine truncQ_le_truncQ ?_ ?_
    · exact add_nonneg (hcap0 n)
        (mul_nonneg hsid0 (mul_nonneg (hcap0 n) hJ0))
    · refine add_le_add hcapmono ?_
      exact mul_le_mul_of_nonneg_left
        (mul_le_mul_of_nonneg_right hcapmono hJ0) hsid0
  · refine ⟨((s.session_id % 1000 : Nat) : ℚ) / 1000 *
      (min ((s.retry_config.initial_delay_seconds : ℚ) *
        ((s.retry_config.backoff_multiplier_bps : ℚ) / 10000) ^ ((n : Int) - 1))
        (s.retry_config.max_delay_seconds : ℚ) *
        ((s.retry_config.jitter_percentage_bps : ℚ) / 10000)), ?_, ?_, ?_⟩
    · exact mul_nonneg hsid0 (mul_nonneg (hcap0 n) hJ0)
    · exact mul_le_of_le_one_left (mul_nonneg (hcap0 n) hJ0) hsid1
    · rw [calculate_exponential_backoff_delay_eq]
  · intro hmax
    unfold Retry.execute_retry_attempt
    split_ifs with g1 g2 g3 <;> first | rfl | exact absurd hmax (by omega)
  · intro mgr2 s2 res h
    obtain ⟨hc, hcfg, hlt⟩ :=
      execute_retry_attempt_ok_inversion ad now mgr s mgr2 s2 res h
    exact ⟨hc, by rw [hc, hcfg]; omega, hcfg⟩

theorem c6_witness :
    (Retry.schedule_next_retry (fun _ _ => 0) 100
       ⟨[], 0, 0, 0, 1, 20, Retry.RetryConfig.default, false, 0, 0⟩
       ⟨7, "tx", Retry.RetryConfig.default, 2, .Scheduled, [], 0, 0, 0, 0, 0, 0,
        none, [], 0⟩ none =
      { (⟨7, "tx", Retry.RetryConfig.default, 2, .Scheduled, [], 0, 0, 0, 0, 0, 0,
          none, [], 0⟩ : Retry.RetrySession) with
        next_retry_at := 100 + Retry.calculate_exponential_backoff_delay
          ⟨7, "tx", Retry.RetryConfig.default, 2, .Scheduled, [], 0, 0, 0, 0, 0, 0,
           none, [], 0⟩,
        status := .Scheduled })
    ∧ Retry.calculate_exponential_backoff_delay
        { (⟨7, "tx", Retry.RetryConfig.default, 2, .Scheduled, [], 0, 0, 0, 0, 0, 0,
            none, [], 0⟩ : Retry.RetrySession) with current_attempt := 1 } ≤
      Retry.calculate_exponential_backoff_delay
        { (⟨7, "tx", Retry.RetryConfig.default, 2, .Scheduled, [], 0, 0, 0, 0, 0, 0,
            none, [], 0⟩ : Retry.RetrySession) with current_attempt := 2 }
    ∧ Retry.execute_retry_attempt (fun _ _ => 0) 100
        ⟨[], 0, 0, 0, 1, 20, Retry.RetryConfig.default, false, 0, 0⟩
        ⟨7, "tx", Retry.RetryConfig.default, 5, .Scheduled, [], 0, 0, 0, 0, 0, 0,
         none, [], 0⟩ = .error .InvalidTransferStatus :=
  ⟨(c6_backoff_monotone_and_attempt_cap (fun _ _ => 0) 100
      ⟨[], 0, 0, 0, 1, 20, Retry.RetryConfig.default, false, 0, 0⟩
      ⟨7, "tx", Retry.RetryConfig.default, 2, .Scheduled, [], 0, 0, 0, 0, 0, 0,
       none, [], 0⟩ none 1 2 rfl (by decide) (by decide) (by decide)).1,
   (c6_backoff_monotone_and_attempt_cap (fun _ _ => 0) 100
      ⟨[], 0, 0, 0, 1, 20, Retry.RetryConfig.default, false, 0, 0⟩
      ⟨7, "tx", Retry.RetryConfig.default, 2, .Scheduled, [], 0, 0, 0, 0, 0, 0,
       none, [], 0⟩ none 1 2 rfl (by decide) (by decide) (by decide)).2.1,
   (c6_backoff_monotone_and_attempt_cap (fun _ _ => 0) 100
      ⟨[], 0, 0, 0, 1, 20, Retry.RetryConfig.default, false, 0, 0⟩
      ⟨7, "tx", Retry.RetryConfig.default, 5, .Scheduled, [], 0, 0, 0, 0, 0, 0,
       none, [], 0⟩ none 1 2 rfl (by decide) (by decide) (by decide)).2.2.2.1
     (by decide)⟩
